import Mathlib

/-!
Verification of the pcap-analyzer traffic-analysis core.

The Go sources are shallowly embedded here:
* OS fingerprint engine (`OSFingerprinter` with `AnalyzeTCP`, `AnalyzeHTTP`,
  `AnalyzeSSH`, `AnalyzeDHCP`, `GetResults`);
* TCP / UDP / ICMP flow trackers with their normalized flow keys;
* the port-based service classifier `identifyService`;
* the public/private address classifier `isPublicIP`;
* the analysis orchestrator `AnalyzePCAP` (its pure control flow, with the
  external packet source and record sink represented as explicit inputs).

Go `map` values are modelled as association lists, Go `float64` confidence
scores as `Int` (the code only ever assigns and adds small integers, on which
IEEE double arithmetic is exact), and `time.Time` values as integer
nanosecond counts, matching Go's internal representation for the operations
used (`Sub`, `Milliseconds`).
-/

set_option maxRecDepth 100000

namespace PcapAnalyzer

/-- Substring search on character lists: models Go `strings.Contains`. -/
def listContainsSub (pat : List Char) : List Char → Bool
  | [] => pat.isEmpty
  | c :: rest => pat.isPrefixOf (c :: rest) || listContainsSub pat rest

/-- Models Go `strings.Contains payload pat`. -/
def strContains (s pat : String) : Bool :=
  listContainsSub pat.data s.data

/-- Models Go `strings.HasPrefix s pat`. -/
def strHasPre (s pat : String) : Bool :=
  pat.data.isPrefixOf s.data

/-- Models Go `strings.ToLower` (ASCII range, which covers every pattern the
fingerprinter matches against). -/
def strToLower (s : String) : String :=
  ⟨s.data.map Char.toLower⟩

/-! ## OS fingerprint engine (osfingerprint.go) -/

/-- Go struct `OSInfo`: OS detection information for one source address.
`Confidence` is `float64` in Go; every value the code ever stores is a small
integer, so `Int` is an exact model. -/
structure OSInfo where
  OSType : String
  Confidence : Int
  Signals : List String
deriving Repr, DecidableEq

/-- The entry inserted for a previously unseen source address. -/
def freshOSInfo : OSInfo :=
  { OSType := "Unknown", Confidence := 0, Signals := [] }

/-- First block of `AnalyzeTCP`: Windows window-size signal
(lines 162-170). -/
def tcpWindowsSig (window : Nat) (i : OSInfo) : OSInfo :=
  if window = 8192 ∨ window = 64240 ∨ window = 65535 then
    let j := { i with Signals := i.Signals ++ ["tcp_window_windows"] }
    if j.OSType = "Unknown" then
      { j with OSType := "Windows", Confidence := 40 }
    else if j.OSType = "Windows" then
      { j with Confidence := j.Confidence + 10 }
    else j
  else i

/-- Second block of `AnalyzeTCP`: Linux window-size signal
(lines 173-181). -/
def tcpLinuxSig (window : Nat) (i : OSInfo) : OSInfo :=
  if window = 5840 ∨ window = 14600 ∨ window = 29200 then
    let j := { i with Signals := i.Signals ++ ["tcp_window_linux"] }
    if j.OSType = "Unknown" then
      { j with OSType := "Linux", Confidence := 40 }
    else if j.OSType = "Linux" then
      { j with Confidence := j.Confidence + 10 }
    else j
  else i

/-- Third block of `AnalyzeTCP`: the TTL heuristic (lines 184-197). -/
def tcpTTLSig (ttl : Nat) (i : OSInfo) : OSInfo :=
  if ttl ≤ 64 ∧ ttl > 32 then
    let j := { i with Signals := i.Signals ++ ["ttl_linux"] }
    if j.OSType = "Unknown" ∨ j.OSType = "Linux" then
      { j with OSType := "Linux", Confidence := j.Confidence + 5 }
    else j
  else if ttl ≤ 128 ∧ ttl > 64 then
    let j := { i with Signals := i.Signals ++ ["ttl_windows"] }
    if j.OSType = "Unknown" ∨ j.OSType = "Windows" then
      { j with OSType := "Windows", Confidence := j.Confidence + 5 }
    else j
  else i

/-- The body of `AnalyzeTCP` acting on one address's entry: the three
blocks in source order (lines 156-197). -/
def analyzeTCPInfo (window ttl : Nat) (i0 : OSInfo) : OSInfo :=
  tcpTTLSig ttl (tcpLinuxSig window (tcpWindowsSig window i0))

/-- Windows block of `AnalyzeHTTP` (lines 220-239), acting on the lowered
payload. -/
def httpWindowsSig (ua : String) (i : OSInfo) : OSInfo :=
  if strContains ua "windows nt" ∨ strContains ua "win64" ∨ strContains ua "wow64" then
    let j := { i with Signals := i.Signals ++ ["http_ua_windows"],
                      OSType := "Windows", Confidence := 90 }
    if strContains ua "windows nt 10.0" then
      { j with OSType := "Windows 10/11", Confidence := 95 }
    else if strContains ua "windows nt 6.3" then
      { j with OSType := "Windows 8.1", Confidence := 95 }
    else if strContains ua "windows nt 6.2" then
      { j with OSType := "Windows 8", Confidence := 95 }
    else if strContains ua "windows nt 6.1" then
      { j with OSType := "Windows 7", Confidence := 95 }
    else j
  else i

/-- Linux block of `AnalyzeHTTP` (lines 242-258). -/
def httpLinuxSig (ua : String) (i : OSInfo) : OSInfo :=
  if strContains ua "linux" ∧ ¬ strContains ua "android" then
    let j := { i with Signals := i.Signals ++ ["http_ua_linux"],
                      OSType := "Linux", Confidence := 90 }
    if strContains ua "ubuntu" then
      { j with OSType := "Linux (Ubuntu)", Confidence := 95 }
    else if strContains ua "fedora" then
      { j with OSType := "Linux (Fedora)", Confidence := 95 }
    else if strContains ua "debian" then
      { j with OSType := "Linux (Debian)", Confidence := 95 }
    else j
  else i

/-- macOS block of `AnalyzeHTTP` (lines 261-265). -/
def httpMacSig (ua : String) (i : OSInfo) : OSInfo :=
  if strContains ua "macintosh" ∨ strContains ua "mac os x" then
    { i with Signals := i.Signals ++ ["http_ua_macos"],
             OSType := "macOS", Confidence := 90 }
  else i

/-- Android block of `AnalyzeHTTP` (lines 268-272). -/
def httpAndroidSig (ua : String) (i : OSInfo) : OSInfo :=
  if strContains ua "android" then
    { i with Signals := i.Signals ++ ["http_ua_android"],
             OSType := "Android", Confidence := 90 }
  else i

/-- iOS block of `AnalyzeHTTP` (lines 275-279). -/
def httpIOSSig (ua : String) (i : OSInfo) : OSInfo :=
  if strContains ua "iphone" ∨ strContains ua "ipad" then
    { i with Signals := i.Signals ++ ["http_ua_ios"],
             OSType := "iOS", Confidence := 90 }
  else i

/-- The body of `AnalyzeHTTP` acting on one address's entry: the
User-Agent guard, then the five vocabulary blocks in source order
(lines 212-279). -/
def analyzeHTTPInfo (payload : String) (i0 : OSInfo) : OSInfo :=
  if ¬ strContains payload "User-Agent:" then i0
  else
    let ua := strToLower payload
    httpIOSSig ua (httpAndroidSig ua (httpMacSig ua (httpLinuxSig ua
      (httpWindowsSig ua i0))))

/-- Ubuntu block of `AnalyzeSSH` (lines 302-306). -/
def sshUbuntuSig (banner : String) (i : OSInfo) : OSInfo :=
  if strContains banner "ubuntu" then
    { i with Signals := i.Signals ++ ["ssh_ubuntu"],
             OSType := "Linux (Ubuntu)", Confidence := 85 }
  else i

/-- Debian block of `AnalyzeSSH` (lines 309-313). -/
def sshDebianSig (banner : String) (i : OSInfo) : OSInfo :=
  if strContains banner "debian" then
    { i with Signals := i.Signals ++ ["ssh_debian"],
             OSType := "Linux (Debian)", Confidence := 85 }
  else i

/-- Generic-Linux block of `AnalyzeSSH` (lines 316-320); the only block
whose guard also reads the current label. -/
def sshLinuxSig (banner : String) (i : OSInfo) : OSInfo :=
  if strContains banner "openssh" ∧ i.OSType = "Unknown" then
    { i with Signals := i.Signals ++ ["ssh_linux"],
             OSType := "Linux", Confidence := 70 }
  else i

/-- The body of `AnalyzeSSH` acting on one address's entry: the banner
guard, then the three blocks in source order (lines 294-320). -/
def analyzeSSHInfo (payload : String) (i0 : OSInfo) : OSInfo :=
  if ¬ strHasPre payload "SSH-" then i0
  else
    let banner := strToLower payload
    sshLinuxSig banner (sshDebianSig banner (sshUbuntuSig banner i0))

/-- The body of `AnalyzeDHCP` acting on one address's entry: any non-empty
DHCP payload adds a flat +5, lines 335-340 of the fingerprinter source. -/
def analyzeDHCPInfo (payloadLen : Nat) (i0 : OSInfo) : OSInfo :=
  if payloadLen > 0 then
    { i0 with Signals := i0.Signals ++ ["dhcp_seen"],
              Confidence := i0.Confidence + 5 }
  else i0

/-! Association lists model Go maps of pointers: looking a key up and
mutating the pointed-to struct is an in-place update of that key's value. -/

/-- Insert-or-replace for an association list keyed by strings. -/
def upsert {α : Type} (m : List (String × α)) (k : String) (v : α) :
    List (String × α) :=
  match m.lookup k with
  | some _ => m.map fun p => if p.1 = k then (k, v) else p
  | none => m ++ [(k, v)]

/-- Go struct `OSFingerprinter`: the map from source address to `OSInfo`. -/
abbrev OSFingerprinter := List (String × OSInfo)

/-- Empty fingerprinter, `NewOSFingerprinter`. -/
def NewOSFingerprinter : OSFingerprinter := []

/-- Current entry for an address, after the create-if-absent preamble every
analyzer starts with. -/
def OSFingerprinter.entry (o : OSFingerprinter) (srcIP : String) : OSInfo :=
  (List.lookup srcIP o).getD freshOSInfo

/-- Go `OSFingerprinter.AnalyzeTCP` (create entry if absent, then mutate). -/
def OSFingerprinter.AnalyzeTCP (o : OSFingerprinter) (srcIP : String)
    (window ttl : Nat) : OSFingerprinter :=
  upsert o srcIP (analyzeTCPInfo window ttl (o.entry srcIP))

/-- Go `OSFingerprinter.AnalyzeHTTP` (create entry if absent, then mutate). -/
def OSFingerprinter.AnalyzeHTTP (o : OSFingerprinter) (srcIP : String)
    (payload : String) : OSFingerprinter :=
  upsert o srcIP (analyzeHTTPInfo payload (o.entry srcIP))

/-- Go `OSFingerprinter.AnalyzeSSH` (create entry if absent, then mutate). -/
def OSFingerprinter.AnalyzeSSH (o : OSFingerprinter) (srcIP : String)
    (payload : String) : OSFingerprinter :=
  upsert o srcIP (analyzeSSHInfo payload (o.entry srcIP))

/-- Go `OSFingerprinter.AnalyzeDHCP` (create entry if absent, then mutate);
only the payload length is inspected. -/
def OSFingerprinter.AnalyzeDHCP (o : OSFingerprinter) (srcIP : String)
    (payloadLen : Nat) : OSFingerprinter :=
  upsert o srcIP (analyzeDHCPInfo payloadLen (o.entry srcIP))

/-- Confidence clamp applied to one entry by `GetResults`. -/
def capInfo (i : OSInfo) : OSInfo :=
  if i.Confidence > 100 then { i with Confidence := 100 } else i

/-- Go `OSFingerprinter.GetResults`: caps every confidence at 100 and
returns the result map. -/
def OSFingerprinter.GetResults (o : OSFingerprinter) : OSFingerprinter :=
  o.map fun p => (p.1, capInfo p.2)

/-! ## Service classifier (pcap.go, identifyService) -/

/-- The fixed port-to-service table from `identifyService`. -/
def servicesTable : List (Nat × String) :=
  [(20, "ftp-data"), (21, "ftp"), (22, "ssh"), (23, "telnet"), (25, "smtp"),
   (53, "dns"), (67, "dhcp"), (68, "dhcp"), (80, "http"), (110, "pop3"),
   (143, "imap"), (443, "https"), (445, "smb"), (3389, "rdp"), (3306, "mysql"),
   (5432, "postgresql"), (6881, "torrent"), (6882, "torrent"), (6883, "torrent"),
   (6884, "torrent"), (6885, "torrent"), (6886, "torrent"), (6887, "torrent"),
   (6888, "torrent"), (6889, "torrent"), (6969, "torrent")]

/-- Go `identifyService`: table lookup, then the torrent range check, then
"unknown". -/
def identifyService (port : Nat) : String :=
  match servicesTable.lookup port with
  | some service => service
  | none => if 6881 ≤ port ∧ port ≤ 6889 then "torrent" else "unknown"

/-! ## Flow keys (tcp.go getStreamKey, udp.go getFlowKey) -/

/-- Lexicographic comparison of character lists: models Go's `<` on
strings (byte-wise lexicographic order). -/
def charListLt : List Char → List Char → Bool
  | [], [] => false
  | [], _ :: _ => true
  | _ :: _, [] => false
  | c :: cs, d :: ds =>
    if c < d then true
    else if d < c then false
    else charListLt cs ds

/-- Go string comparison `a < b`. -/
def strLtB (a b : String) : Bool :=
  charListLt a.data b.data

/-- Go `TCPTracker.getStreamKey`: normalized bidirectional stream key. -/
def getStreamKey (srcIP dstIP : String) (srcPort dstPort : Nat) : String :=
  if strLtB srcIP dstIP || (srcIP == dstIP && decide (srcPort < dstPort)) then
    srcIP ++ ":" ++ toString srcPort ++ "-" ++ dstIP ++ ":" ++ toString dstPort
  else
    dstIP ++ ":" ++ toString dstPort ++ "-" ++ srcIP ++ ":" ++ toString srcPort

/-- Go `UDPTracker.getFlowKey`: identical normalization for UDP flows. -/
def getFlowKey (srcIP dstIP : String) (srcPort dstPort : Nat) : String :=
  if strLtB srcIP dstIP || (srcIP == dstIP && decide (srcPort < dstPort)) then
    srcIP ++ ":" ++ toString srcPort ++ "-" ++ dstIP ++ ":" ++ toString dstPort
  else
    dstIP ++ ":" ++ toString dstPort ++ "-" ++ srcIP ++ ":" ++ toString srcPort

/-! ## TCP tracker (tcp.go)

Timestamps are modelled as `Int` nanosecond counts; `time.Time.Sub` is then
integer subtraction and `Duration.Milliseconds` is `int64` division by 1e6,
which truncates toward zero (`Int.div`). -/

/-- The decoded TCP header fields the tracker and fingerprinter consume.
`payloadLen` is `len(tcp.Payload)`. -/
structure TCPHeader where
  SrcPort : Nat
  DstPort : Nat
  Window : Nat
  SYN : Bool
  ACK : Bool
  FIN : Bool
  RST : Bool
  payloadLen : Nat
deriving Repr, DecidableEq

/-- Go struct `TCPStream`. -/
structure TCPStream where
  SrcIP : String
  DstIP : String
  SrcPort : Nat
  DstPort : Nat
  BytesSent : Int
  BytesReceived : Int
  StartTime : Int
  EndTime : Int
  Service : String
  SYNSeen : Bool
  FINSeen : Bool
  RSTSeen : Bool
deriving Repr, DecidableEq

/-- Go struct `TCPConnectionInfo`. -/
structure TCPConnectionInfo where
  SrcIP : String
  DstIP : String
  SrcPort : Nat
  DstPort : Nat
  BytesSent : Int
  BytesReceived : Int
  DurationMs : Int
  Service : String
  StartTime : Int
  EndTime : Int
deriving Repr, DecidableEq

/-- Go struct `TCPTracker`. -/
structure TCPTracker where
  streams : List (String × TCPStream)
  Connections : List TCPConnectionInfo
deriving Repr, DecidableEq

/-- Go `NewTCPTracker`. -/
def NewTCPTracker : TCPTracker := { streams := [], Connections := [] }

/-- The effective packet size counted by both trackers: the
application-layer payload length when that layer is present, otherwise the
transport payload length. -/
def effPayloadLen (hdrLen : Nat) (app : Option Nat) : Int :=
  match app with
  | some n => (n : Int)
  | none => (hdrLen : Int)

/-- The mutation `ProcessPacket` applies to the (found or created) stream:
end-time update, flag tracking, and byte attribution by first-seen sender.
`app` is the application-layer payload length when that layer is present. -/
def tcpMutate (srcIP : String) (tcp : TCPHeader) (timestamp : Int)
    (app : Option Nat) (s0 : TCPStream) : TCPStream :=
  let s1 := { s0 with EndTime := timestamp }
  let s2 := if tcp.SYN ∧ ¬ tcp.ACK then { s1 with SYNSeen := true } else s1
  let s3 := if tcp.FIN then { s2 with FINSeen := true } else s2
  let s4 := if tcp.RST then { s3 with RSTSeen := true } else s3
  let packetSize : Int := effPayloadLen tcp.payloadLen app
  if srcIP = s4.SrcIP ∧ tcp.SrcPort = s4.SrcPort then
    { s4 with BytesSent := s4.BytesSent + packetSize }
  else
    { s4 with BytesReceived := s4.BytesReceived + packetSize }

/-- The stream record `ProcessPacket` creates for an unseen key. -/
def newStream (srcIP dstIP : String) (tcp : TCPHeader) (timestamp : Int) :
    TCPStream :=
  { SrcIP := srcIP, DstIP := dstIP, SrcPort := tcp.SrcPort,
    DstPort := tcp.DstPort, BytesSent := 0, BytesReceived := 0,
    StartTime := timestamp, EndTime := timestamp,
    Service := identifyService tcp.DstPort,
    SYNSeen := false, FINSeen := false, RSTSeen := false }

/-- Go `TCPTracker.ProcessPacket`. -/
def TCPTracker.ProcessPacket (t : TCPTracker) (srcIP dstIP : String)
    (tcp : TCPHeader) (timestamp : Int) (app : Option Nat) : TCPTracker :=
  let key := getStreamKey srcIP dstIP tcp.SrcPort tcp.DstPort
  let stream :=
    match t.streams.lookup key with
    | some s => s
    | none => newStream srcIP dstIP tcp timestamp
  { t with streams := upsert t.streams key (tcpMutate srcIP tcp timestamp app stream) }

/-- Go `TCPTracker.Finalize`: one connection record per tracked stream, with
`DurationMs = (EndTime - StartTime).Milliseconds()` (truncated division). -/
def TCPTracker.Finalize (t : TCPTracker) : TCPTracker :=
  { t with Connections := t.Connections ++ t.streams.map fun p =>
      { SrcIP := p.2.SrcIP, DstIP := p.2.DstIP, SrcPort := p.2.SrcPort,
        DstPort := p.2.DstPort, BytesSent := p.2.BytesSent,
        BytesReceived := p.2.BytesReceived,
        DurationMs := Int.tdiv (p.2.EndTime - p.2.StartTime) 1000000,
        Service := p.2.Service, StartTime := p.2.StartTime,
        EndTime := p.2.EndTime } }

/-! ## UDP tracker (udp.go) -/

/-- The decoded UDP header fields the tracker consumes. -/
structure UDPHeader where
  SrcPort : Nat
  DstPort : Nat
  payloadLen : Nat
deriving Repr, DecidableEq

/-- Go struct `UDPFlow`. -/
structure UDPFlow where
  SrcIP : String
  DstIP : String
  SrcPort : Nat
  DstPort : Nat
  BytesSent : Int
  BytesReceived : Int
  StartTime : Int
  EndTime : Int
  Service : String
deriving Repr, DecidableEq

/-- Go struct `UDPConnectionInfo`. -/
structure UDPConnectionInfo where
  SrcIP : String
  DstIP : String
  SrcPort : Nat
  DstPort : Nat
  BytesSent : Int
  BytesReceived : Int
  DurationMs : Int
  Service : String
  StartTime : Int
  EndTime : Int
deriving Repr, DecidableEq

/-- Go struct `UDPTracker`. -/
structure UDPTracker where
  flows : List (String × UDPFlow)
  Connections : List UDPConnectionInfo
deriving Repr, DecidableEq

/-- Go `NewUDPTracker`. -/
def NewUDPTracker : UDPTracker := { flows := [], Connections := [] }

/-- The mutation `UDPTracker.ProcessPacket` applies to the flow record. -/
def udpMutate (srcIP : String) (udp : UDPHeader) (timestamp : Int)
    (app : Option Nat) (f0 : UDPFlow) : UDPFlow :=
  let f1 := { f0 with EndTime := timestamp }
  let packetSize : Int := effPayloadLen udp.payloadLen app
  if srcIP = f1.SrcIP ∧ udp.SrcPort = f1.SrcPort then
    { f1 with BytesSent := f1.BytesSent + packetSize }
  else
    { f1 with BytesReceived := f1.BytesReceived + packetSize }

/-- The flow record `UDPTracker.ProcessPacket` creates for an unseen key,
including the source-port fallback for service resolution. -/
def newFlow (srcIP dstIP : String) (udp : UDPHeader) (timestamp : Int) :
    UDPFlow :=
  let service0 := identifyService udp.DstPort
  let service := if service0 = "unknown" then identifyService udp.SrcPort
                 else service0
  { SrcIP := srcIP, DstIP := dstIP, SrcPort := udp.SrcPort,
    DstPort := udp.DstPort, BytesSent := 0, BytesReceived := 0,
    StartTime := timestamp, EndTime := timestamp, Service := service }

/-- Go `UDPTracker.ProcessPacket`. -/
def UDPTracker.ProcessPacket (u : UDPTracker) (srcIP dstIP : String)
    (udp : UDPHeader) (timestamp : Int) (app : Option Nat) : UDPTracker :=
  let key := getFlowKey srcIP dstIP udp.SrcPort udp.DstPort
  let flow :=
    match u.flows.lookup key with
    | some f => f
    | none => newFlow srcIP dstIP udp timestamp
  { u with flows := upsert u.flows key (udpMutate srcIP udp timestamp app flow) }

/-- Go `UDPTracker.Finalize`. -/
def UDPTracker.Finalize (u : UDPTracker) : UDPTracker :=
  { u with Connections := u.Connections ++ u.flows.map fun p =>
      { SrcIP := p.2.SrcIP, DstIP := p.2.DstIP, SrcPort := p.2.SrcPort,
        DstPort := p.2.DstPort, BytesSent := p.2.BytesSent,
        BytesReceived := p.2.BytesReceived,
        DurationMs := Int.tdiv (p.2.EndTime - p.2.StartTime) 1000000,
        Service := p.2.Service, StartTime := p.2.StartTime,
        EndTime := p.2.EndTime } }

/-! ## ICMP tracker (udp.go, second half) -/

/-- Go struct `ICMPFlow`. -/
structure ICMPFlow where
  SrcIP : String
  DstIP : String
  BytesSent : Int
  StartTime : Int
  EndTime : Int
deriving Repr, DecidableEq

/-- Go struct `ICMPConnectionInfo`. -/
structure ICMPConnectionInfo where
  SrcIP : String
  DstIP : String
  BytesSent : Int
  DurationMs : Int
  StartTime : Int
  EndTime : Int
deriving Repr, DecidableEq

/-- Go struct `ICMPTracker`. -/
structure ICMPTracker where
  flows : List (String × ICMPFlow)
  Connections : List ICMPConnectionInfo
deriving Repr, DecidableEq

/-- Go `NewICMPTracker`. -/
def NewICMPTracker : ICMPTracker := { flows := [], Connections := [] }

/-- Go `ICMPTracker.ProcessPacket`: directed key, fixed 8-byte unit. -/
def ICMPTracker.ProcessPacket (i : ICMPTracker) (srcIP dstIP : String)
    (timestamp : Int) : ICMPTracker :=
  let key := srcIP ++ "-" ++ dstIP
  let flow :=
    match i.flows.lookup key with
    | some f => f
    | none =>
      { SrcIP := srcIP, DstIP := dstIP, BytesSent := 0,
        StartTime := timestamp, EndTime := timestamp }
  let flow := { flow with EndTime := timestamp }
  let flow := { flow with BytesSent := flow.BytesSent + 8 }
  { i with flows := upsert i.flows key flow }

/-- Go `ICMPTracker.Finalize`. -/
def ICMPTracker.Finalize (i : ICMPTracker) : ICMPTracker :=
  { i with Connections := i.Connections ++ i.flows.map fun p =>
      { SrcIP := p.2.SrcIP, DstIP := p.2.DstIP, BytesSent := p.2.BytesSent,
        DurationMs := Int.tdiv (p.2.EndTime - p.2.StartTime) 1000000,
        StartTime := p.2.StartTime, EndTime := p.2.EndTime } }

/-! ## Tracker event sequences -/

/-- One TCP packet event as fed to `TCPTracker.ProcessPacket`. -/
structure TCPEvent where
  srcIP : String
  dstIP : String
  tcp : TCPHeader
  timestamp : Int
  app : Option Nat
deriving Repr, DecidableEq

/-- Feed one event to the TCP tracker. -/
def TCPTracker.processEvent (t : TCPTracker) (e : TCPEvent) : TCPTracker :=
  t.ProcessPacket e.srcIP e.dstIP e.tcp e.timestamp e.app

/-- The normalized stream key of an event. -/
def eventKey (e : TCPEvent) : String :=
  getStreamKey e.srcIP e.dstIP e.tcp.SrcPort e.tcp.DstPort

/-- The payload length the tracker counts for an event. -/
def eventSize (e : TCPEvent) : Int :=
  effPayloadLen e.tcp.payloadLen e.app

/-- One UDP packet event as fed to `UDPTracker.ProcessPacket`. -/
structure UDPEvent where
  srcIP : String
  dstIP : String
  udp : UDPHeader
  timestamp : Int
  app : Option Nat
deriving Repr, DecidableEq

/-- Feed one event to the UDP tracker. -/
def UDPTracker.processEvent (u : UDPTracker) (e : UDPEvent) : UDPTracker :=
  u.ProcessPacket e.srcIP e.dstIP e.udp e.timestamp e.app

/-- The normalized flow key of a UDP event. -/
def udpEventKey (e : UDPEvent) : String :=
  getFlowKey e.srcIP e.dstIP e.udp.SrcPort e.udp.DstPort

/-- Sample client-to-server event of a two-packet synthetic flow. -/
def tcpEvtA : TCPEvent :=
  { srcIP := "10.0.0.5", dstIP := "10.0.0.9",
    tcp := { SrcPort := 1000, DstPort := 80, Window := 0, SYN := false,
             ACK := false, FIN := false, RST := false, payloadLen := 3 },
    timestamp := 0, app := none }

/-- Sample server-to-client reply event of the same flow, 7 ms later. -/
def tcpEvtB : TCPEvent :=
  { srcIP := "10.0.0.9", dstIP := "10.0.0.5",
    tcp := { SrcPort := 80, DstPort := 1000, Window := 0, SYN := false,
             ACK := false, FIN := false, RST := false, payloadLen := 4 },
    timestamp := 7000000, app := some 6 }

/-- Sample first event of a capture whose timestamps regress. -/
def tcpEvtC : TCPEvent :=
  { srcIP := "10.0.0.5", dstIP := "10.0.0.9",
    tcp := { SrcPort := 1000, DstPort := 80, Window := 0, SYN := false,
             ACK := false, FIN := false, RST := false, payloadLen := 3 },
    timestamp := 5000000, app := none }

/-- Sample second event of the regressing capture, 5 ms earlier. -/
def tcpEvtD : TCPEvent :=
  { srcIP := "10.0.0.9", dstIP := "10.0.0.5",
    tcp := { SrcPort := 80, DstPort := 1000, Window := 0, SYN := false,
             ACK := false, FIN := false, RST := false, payloadLen := 4 },
    timestamp := 0, app := none }

/-! ## Address classifier (pcap.go, isPublicIP)

`net.ParseIP` (standard library, external to this repository) yields a
16-byte address for every parseable input — dotted-quad inputs become
IPv4-in-IPv6 mapped bytes — and `nil` otherwise; the parse result is
modelled as `Option (List Nat)`. `net.IP.To4` and `net.IPNet.Contains` are
embedded below from their library semantics, and the eight `ParseCIDR`
constants of `isPublicIP` are embedded as their resulting
(network-number, mask) byte lists, 4-byte for the IPv4 ranges and 16-byte
for the IPv6 ranges, exactly as `ParseCIDR` produces them. -/

/-- The 12-byte prefix marking an IPv4-mapped IPv6 address
(`net.v4InV6Prefix`). -/
def v4MappedPre : List Nat := [0, 0, 0, 0, 0, 0, 0, 0, 0, 0, 255, 255]

/-- Go `net.IP.To4`: a 4-byte address is returned as is; a 16-byte
IPv4-mapped address is shortened to its last 4 bytes; anything else is nil. -/
def ipTo4 (ip : List Nat) : Option (List Nat) :=
  if ip.length = 4 then some ip
  else if ip.length = 16 ∧ ip.take 12 = v4MappedPre then some (ip.drop 12)
  else none

/-- The masked byte-wise comparison loop of `net.IPNet.Contains`. -/
def maskMatch : List Nat → List Nat → List Nat → Bool
  | n :: ns, m :: ms, b :: bs => (n &&& m = b &&& m) && maskMatch ns ms bs
  | [], [], [] => true
  | _, _, _ => false

/-- Go `net.IPNet.Contains`: convert the candidate with `To4` when possible,
require equal lengths, then compare under the mask. -/
def netContains (nn mask ip0 : List Nat) : Bool :=
  let ip := match ipTo4 ip0 with
    | some x => x
    | none => ip0
  if ip.length = nn.length then maskMatch nn mask ip else false

/-- The eight `privateRanges` CIDR constants of `isPublicIP`, as the
(network number, mask) pairs `net.ParseCIDR` builds for them. -/
def privateRanges : List (List Nat × List Nat) :=
  [([10, 0, 0, 0], [255, 0, 0, 0]),
   ([172, 16, 0, 0], [255, 240, 0, 0]),
   ([192, 168, 0, 0], [255, 255, 0, 0]),
   ([127, 0, 0, 0], [255, 0, 0, 0]),
   ([169, 254, 0, 0], [255, 255, 0, 0]),
   ([0, 0, 0, 0, 0, 0, 0, 0, 0, 0, 0, 0, 0, 0, 0, 1],
    [255, 255, 255, 255, 255, 255, 255, 255, 255, 255, 255, 255, 255, 255, 255, 255]),
   ([252, 0, 0, 0, 0, 0, 0, 0, 0, 0, 0, 0, 0, 0, 0, 0],
    [254, 0, 0, 0, 0, 0, 0, 0, 0, 0, 0, 0, 0, 0, 0, 0]),
   ([254, 128, 0, 0, 0, 0, 0, 0, 0, 0, 0, 0, 0, 0, 0, 0],
    [255, 192, 0, 0, 0, 0, 0, 0, 0, 0, 0, 0, 0, 0, 0, 0])]

/-- Go `isPublicIP`, taking the `net.ParseIP` result: parse failure is
false; any range containing the address is false; otherwise true. -/
def isPublicIP (parsed : Option (List Nat)) : Bool :=
  match parsed with
  | none => false
  | some ip => privateRanges.all fun r => !(netContains r.1 r.2 ip)

/-- Spec reading of the private/reserved v4 ranges, stated arithmetically
on the 4 embedded bytes: 10/8, 172.16/12, 192.168/16, 127/8, 169.254/16. -/
def specPrivateV4 (b : List Nat) : Prop :=
  b.getD 0 0 = 10 ∨
  (b.getD 0 0 = 172 ∧ 16 ≤ b.getD 1 0 ∧ b.getD 1 0 ≤ 31) ∨
  (b.getD 0 0 = 192 ∧ b.getD 1 0 = 168) ∨
  b.getD 0 0 = 127 ∨
  (b.getD 0 0 = 169 ∧ b.getD 1 0 = 254)

/-- Spec reading of "the address is contained in one of the ranges
10.0.0.0/8, 172.16.0.0/12, 192.168.0.0/16, 127.0.0.0/8, 169.254.0.0/16,
::1/128, fc00::/7, fe80::/10", on the parsed 16-byte address: an
IPv4(-mapped) address is checked against the four-byte ranges, a native
IPv6 address against ::1, fc00::/7 (first byte 252 or 253) and fe80::/10
(first byte 254, second byte 128..191). -/
def specPrivate (ip : List Nat) : Prop :=
  (∃ b, ipTo4 ip = some b ∧ specPrivateV4 b) ∨
  (ipTo4 ip = none ∧
    (ip = [0, 0, 0, 0, 0, 0, 0, 0, 0, 0, 0, 0, 0, 0, 0, 1] ∨
     ip.getD 0 0 = 252 ∨ ip.getD 0 0 = 253 ∨
     (ip.getD 0 0 = 254 ∧ 128 ≤ ip.getD 1 0 ∧ ip.getD 1 0 ≤ 191)))

/-! ## Analysis orchestrator (pcap.go, AnalyzePCAP)

The orchestrator's pure control flow. The external packet source is an
`Except String (List Packet)` (open failure or the decoded packet stream);
the sink's per-record save outcomes are Bool-valued functions; status
updates through the sink are modelled as always reaching the database. -/

/-- Network layer of a packet: IPv4 (with the TTL the fingerprinter reads)
or IPv6. -/
inductive NetLayer where
  | v4 (src dst : String) (ttl : Nat)
  | v6 (src dst : String)
deriving Repr, DecidableEq

/-- Source address of a network layer. -/
def NetLayer.src : NetLayer → String
  | .v4 s _ _ => s
  | .v6 s _ => s

/-- Destination address of a network layer. -/
def NetLayer.dst : NetLayer → String
  | .v4 _ d _ => d
  | .v6 _ d => d

/-- One decoded packet event, with each optional protocol layer. The
application payload is carried as the string the analyzers receive. -/
structure Packet where
  timestamp : Int
  net : Option NetLayer
  ethSrcMAC : Option String
  tcp : Option TCPHeader
  udp : Option UDPHeader
  icmp : Bool
  app : Option String
deriving Repr, DecidableEq

/-- Go struct `AssetInfo` (pcap.go). -/
structure AssetInfo where
  IPAddress : String
  OSType : String
  OSConfidence : Int
  MACAddress : String
deriving Repr, DecidableEq

/-- The per-job mutable state of the packet loop. -/
structure JobState where
  tcpTracker : TCPTracker
  udpTracker : UDPTracker
  icmpTracker : ICMPTracker
  osFingerprinter : OSFingerprinter
  assetMap : List (String × AssetInfo)
  targetMap : List String
deriving Repr, DecidableEq

/-- The tracking structures as initialized at the start of `AnalyzePCAP`. -/
def initialJobState : JobState :=
  { tcpTracker := NewTCPTracker, udpTracker := NewUDPTracker,
    icmpTracker := NewICMPTracker, osFingerprinter := NewOSFingerprinter,
    assetMap := [], targetMap := [] }

/-- Sample TCP packet on ports away from 80 and 22, carrying an HTTP-like
payload. -/
def pktOddPort : Packet :=
  { timestamp := 0, net := some (.v4 "10.0.0.5" "10.0.0.9" 64),
    ethSrcMAC := none,
    tcp := some { SrcPort := 5000, DstPort := 6000, Window := 0, SYN := false,
                  ACK := false, FIN := false, RST := false, payloadLen := 20 },
    udp := none, icmp := false,
    app := some "User-Agent: Windows NT 10.0" }

/-- The body of the packet loop of `AnalyzePCAP` (pcap.go lines 57-142):
asset and target registration, per-protocol tracker dispatch, and the
port-gated fingerprint analyzer calls. -/
def processPacket (st : JobState) (pkt : Packet) : JobState :=
  match pkt.net with
  | none => st
  | some nl =>
    let srcIP := nl.src
    let dstIP := nl.dst
    let assetMap :=
      match st.assetMap.lookup srcIP with
      | some _ => st.assetMap
      | none => st.assetMap ++
          [(srcIP, { IPAddress := srcIP, OSType := "Unknown",
                     OSConfidence := 0, MACAddress := "" })]
    let targetMap :=
      if st.targetMap.contains dstIP then st.targetMap
      else st.targetMap ++ [dstIP]
    let assetMap :=
      match pkt.ethSrcMAC with
      | some mac => assetMap.map fun p =>
          if p.1 = srcIP then (p.1, { p.2 with MACAddress := mac }) else p
      | none => assetMap
    let tcpTracker :=
      match pkt.tcp with
      | some tcp => st.tcpTracker.ProcessPacket srcIP dstIP tcp pkt.timestamp
          (pkt.app.map String.length)
      | none => st.tcpTracker
    let fp :=
      match pkt.tcp with
      | some tcp =>
        let fp :=
          match nl with
          | .v4 _ _ ttl => st.osFingerprinter.AnalyzeTCP srcIP tcp.Window ttl
          | .v6 _ _ => st.osFingerprinter
        let fp :=
          if tcp.DstPort = 80 ∨ tcp.SrcPort = 80 then
            match pkt.app with
            | some payload => fp.AnalyzeHTTP srcIP payload
            | none => fp
          else fp
        if tcp.DstPort = 22 ∨ tcp.SrcPort = 22 then
          match pkt.app with
          | some payload => fp.AnalyzeSSH srcIP payload
          | none => fp
        else fp
      | none => st.osFingerprinter
    let udpTracker :=
      match pkt.udp with
      | some udp => st.udpTracker.ProcessPacket srcIP dstIP udp pkt.timestamp
          (pkt.app.map String.length)
      | none => st.udpTracker
    let fp :=
      match pkt.udp with
      | some udp =>
        if udp.DstPort = 67 ∨ udp.SrcPort = 67 then
          match pkt.app with
          | some payload => fp.AnalyzeDHCP srcIP payload.length
          | none => fp
        else fp
      | none => fp
    let icmpTracker :=
      if pkt.icmp then st.icmpTracker.ProcessPacket srcIP dstIP pkt.timestamp
      else st.icmpTracker
    { tcpTracker := tcpTracker, udpTracker := udpTracker,
      icmpTracker := icmpTracker, osFingerprinter := fp,
      assetMap := assetMap, targetMap := targetMap }

/-- Database row for an asset (`database.Asset`). -/
structure DBAsset where
  AnalysisID : Int
  IPAddress : String
  OSType : String
  OSConfidence : Int
  MACAddress : String
deriving Repr, DecidableEq

/-- Database row for a target (`database.Target`). -/
structure DBTarget where
  AnalysisID : Int
  IPAddress : String
  Label : String
deriving Repr, DecidableEq

/-- Database row for a connection (`database.TCPConnection` and
`database.OtherConnection` share these fields; timestamps kept numeric). -/
structure DBConn where
  AnalysisID : Int
  SrcIP : String
  DstIP : String
  SrcPort : Nat
  DstPort : Nat
  BytesSent : Int
  BytesReceived : Int
  Protocol : String
  DurationMs : Int
  Service : String
  StartTime : Int
  EndTime : Int
deriving Repr, DecidableEq

/-- The persistent store as the orchestrator sees it. -/
structure Database where
  status : String
  errorMessage : String
  assets : List DBAsset
  targets : List DBTarget
  tcpConns : List DBConn
  otherConns : List DBConn
deriving Repr, DecidableEq

/-- Per-record save outcomes of the sink: `true` means the row-level write
succeeds, `false` means it returns an error (which `AnalyzePCAP` logs and
skips). -/
structure SinkBehavior where
  saveAssetOk : DBAsset → Bool
  saveTargetOk : DBTarget → Bool
  saveTCPOk : DBConn → Bool
  saveOtherOk : DBConn → Bool

/-- One of the record-save loops of `AnalyzePCAP`: append each record whose
save succeeds, skip (log) each that fails, never abort. -/
def saveLoop {α : Type} (ok : α → Bool) (stored : List α) (recs : List α) :
    List α :=
  recs.foldl (fun acc r => if ok r then acc ++ [r] else acc) stored

/-- The merge of fingerprint results into the asset map
(pcap.go lines 150-156). -/
def mergeOSResults (results : OSFingerprinter)
    (assetMap : List (String × AssetInfo)) : List (String × AssetInfo) :=
  results.foldl
    (fun am p => am.map fun q =>
      if q.1 = p.1 then
        (q.1, { q.2 with OSType := p.2.OSType, OSConfidence := p.2.Confidence })
      else q)
    assetMap

/-- The record lists the analysis pipeline produces for one packet stream
(pcap.go lines 47-156 and the record constructions of the save loops):
assets with merged fingerprints, labeled targets, TCP connection rows, and
the UDP-then-ICMP rows that share the other-connections table. -/
def pipelineRecords (analysisID : Int) (packets : List Packet)
    (parseIP : String → Option (List Nat)) :
    List DBAsset × List DBTarget × List DBConn × List DBConn :=
  let st := packets.foldl processPacket initialJobState
  let tcpTracker := st.tcpTracker.Finalize
  let udpTracker := st.udpTracker.Finalize
  let icmpTracker := st.icmpTracker.Finalize
  let assetMap := mergeOSResults st.osFingerprinter.GetResults st.assetMap
  let assetRecs := assetMap.map fun p =>
    { AnalysisID := analysisID, IPAddress := p.2.IPAddress,
      OSType := p.2.OSType, OSConfidence := p.2.OSConfidence,
      MACAddress := p.2.MACAddress : DBAsset }
  let targetRecs := st.targetMap.map fun ip =>
    { AnalysisID := analysisID, IPAddress := ip,
      Label := if isPublicIP (parseIP ip) then "public" else "local" :
        DBTarget }
  let tcpRecs := tcpTracker.Connections.map fun c =>
    { AnalysisID := analysisID, SrcIP := c.SrcIP, DstIP := c.DstIP,
      SrcPort := c.SrcPort, DstPort := c.DstPort, BytesSent := c.BytesSent,
      BytesReceived := c.BytesReceived, Protocol := "TCP",
      DurationMs := c.DurationMs, Service := c.Service,
      StartTime := c.StartTime, EndTime := c.EndTime : DBConn }
  let udpRecs := udpTracker.Connections.map fun c =>
    { AnalysisID := analysisID, SrcIP := c.SrcIP, DstIP := c.DstIP,
      SrcPort := c.SrcPort, DstPort := c.DstPort, BytesSent := c.BytesSent,
      BytesReceived := c.BytesReceived, Protocol := "UDP",
      DurationMs := c.DurationMs, Service := c.Service,
      StartTime := c.StartTime, EndTime := c.EndTime : DBConn }
  let icmpRecs := icmpTracker.Connections.map fun c =>
    { AnalysisID := analysisID, SrcIP := c.SrcIP, DstIP := c.DstIP,
      SrcPort := 0, DstPort := 0, BytesSent := c.BytesSent,
      BytesReceived := 0, Protocol := "ICMP", DurationMs := c.DurationMs,
      Service := "icmp", StartTime := c.StartTime, EndTime := c.EndTime :
        DBConn }
  (assetRecs, targetRecs, tcpRecs, udpRecs ++ icmpRecs)

/-- Go `AnalyzePCAP` (pcap.go lines 30-256): status transitions, source
open, packet loop, finalization, fingerprint merge, and the four
best-effort save loops. `parseIP` stands for `net.ParseIP`. Returns the
final database state and the orchestrator's returned error, if any. -/
def AnalyzePCAP (analysisID : Int) (openResult : Except String (List Packet))
    (parseIP : String → Option (List Nat)) (sink : SinkBehavior)
    (db0 : Database) : Database × Option String :=
  let db1 := { db0 with status := "processing", errorMessage := "" }
  match openResult with
  | .error e =>
    ({ db1 with status := "failed", errorMessage := e },
     some ("failed to open pcap file: " ++ e))
  | .ok packets =>
    let recs := pipelineRecords analysisID packets parseIP
    let db2 := { db1 with
      assets := saveLoop sink.saveAssetOk db1.assets recs.1,
      targets := saveLoop sink.saveTargetOk db1.targets recs.2.1,
      tcpConns := saveLoop sink.saveTCPOk db1.tcpConns recs.2.2.1,
      otherConns := saveLoop sink.saveOtherOk db1.otherConns recs.2.2.2 }
    ({ db2 with status := "completed", errorMessage := "" }, none)

/-! ## Analyzer call sequences -/

/-- One analyzer invocation on the fingerprint engine, with its input. -/
inductive FPCall where
  | tcp (srcIP : String) (window ttl : Nat)
  | http (srcIP : String) (payload : String)
  | ssh (srcIP : String) (payload : String)
  | dhcp (srcIP : String) (payloadLen : Nat)
deriving Repr, DecidableEq

/-- Dispatch one analyzer call on the engine. -/
def applyCall (o : OSFingerprinter) : FPCall → OSFingerprinter
  | .tcp s w t => o.AnalyzeTCP s w t
  | .http s p => o.AnalyzeHTTP s p
  | .ssh s p => o.AnalyzeSSH s p
  | .dhcp s n => o.AnalyzeDHCP s n

/-- Run a sequence of analyzer calls on a fresh engine. -/
def runCalls (cs : List FPCall) : OSFingerprinter :=
  cs.foldl applyCall NewOSFingerprinter

/-- Every stored confidence in the engine is non-negative. -/
def ConfNonneg (o : OSFingerprinter) : Prop :=
  ∀ p ∈ o, 0 ≤ (p.2 : OSInfo).Confidence

/-! ## Association-list lemmas -/

theorem lookup_append_of_none {α : Type} {m : List (String × α)} {k : String}
    (v : α) (h : m.lookup k = none) : (m ++ [(k, v)]).lookup k = some v := by
  rw [List.lookup_append, h]
  simp

theorem lookup_map_update_self {α : Type} {m : List (String × α)} {k : String}
    {w : α} (v : α) (h : m.lookup k = some w) :
    ((m.map fun p => if p.1 = k then (k, v) else p).lookup k) = some v := by
  induction m with
  | nil => simp at h
  | cons p m ih =>
    obtain ⟨pk, pv⟩ := p
    by_cases hpk : pk = k
    · subst hpk
      simp
    · have hbeq : (k == pk) = false := beq_eq_false_iff_ne.mpr (Ne.symm hpk)
      simp only [List.lookup_cons, hbeq] at h
      simp only [List.map_cons, if_neg hpk, List.lookup_cons, hbeq]
      exact ih h

theorem lookup_map_update_other {α : Type} {m : List (String × α)}
    {k k' : String} (v : α) (hne : k' ≠ k) :
    ((m.map fun p => if p.1 = k then (k, v) else p).lookup k') =
      m.lookup k' := by
  induction m with
  | nil => simp
  | cons p m ih =>
    obtain ⟨pk, pv⟩ := p
    by_cases hpk : pk = k
    · have hbk : (k' == k) = false := beq_eq_false_iff_ne.mpr hne
      have hbp : (k' == pk) = false :=
        beq_eq_false_iff_ne.mpr (fun he => hne (he.trans hpk))
      simp only [List.map_cons, if_pos hpk, List.lookup_cons, hbk, hbp]
      exact ih
    · simp only [List.map_cons, if_neg hpk, List.lookup_cons]
      cases hk' : (k' == pk) with
      | true => rfl
      | false => exact ih

theorem lookup_upsert_self {α : Type} (m : List (String × α)) (k : String)
    (v : α) : (upsert m k v).lookup k = some v := by
  unfold upsert
  cases h : m.lookup k with
  | none => exact lookup_append_of_none v h
  | some w => exact lookup_map_update_self v h

theorem lookup_append_single_other {α : Type} (m : List (String × α))
    {k k' : String} (v : α) (hne : k' ≠ k) :
    (m ++ [(k, v)]).lookup k' = m.lookup k' := by
  rw [List.lookup_append]
  have hbeq : (k' == k) = false := beq_eq_false_iff_ne.mpr hne
  simp [List.lookup_cons, hbeq]

theorem lookup_upsert_other {α : Type} (m : List (String × α)) {k k' : String}
    (v : α) (hne : k' ≠ k) : (upsert m k v).lookup k' = m.lookup k' := by
  unfold upsert
  cases h : m.lookup k with
  | none => exact lookup_append_single_other m v hne
  | some w => exact lookup_map_update_other v hne

theorem mem_upsert {α : Type} {m : List (String × α)} {k : String} {v : α}
    {p : String × α} (h : p ∈ upsert m k v) : p ∈ m ∨ p = (k, v) := by
  unfold upsert at h
  cases hl : m.lookup k with
  | none =>
    rw [hl] at h
    rcases List.mem_append.mp h with h | h
    · exact Or.inl h
    · exact Or.inr (by simpa using h)
  | some w =>
    rw [hl] at h
    rcases List.mem_map.mp h with ⟨q, hq, he⟩
    by_cases hqk : q.1 = k
    · right
      rw [if_pos hqk] at he
      exact he.symm
    · left
      rw [if_neg hqk] at he
      exact he ▸ hq

theorem entry_upsert_self (o : OSFingerprinter) (k : String) (v : OSInfo) :
    OSFingerprinter.entry (upsert o k v) k = v := by
  unfold OSFingerprinter.entry
  rw [lookup_upsert_self]
  rfl

/-! ## Confidence arithmetic lemmas for the four analyzers -/

theorem tcpWindowsSig_conf_nonneg (window : Nat) (i : OSInfo)
    (h : 0 ≤ i.Confidence) : 0 ≤ (tcpWindowsSig window i).Confidence := by
  unfold tcpWindowsSig
  try dsimp only
  split_ifs <;> first | omega | (dsimp only; omega)

theorem tcpLinuxSig_conf_nonneg (window : Nat) (i : OSInfo)
    (h : 0 ≤ i.Confidence) : 0 ≤ (tcpLinuxSig window i).Confidence := by
  unfold tcpLinuxSig
  try dsimp only
  split_ifs <;> first | omega | (dsimp only; omega)

theorem tcpTTLSig_conf_nonneg (ttl : Nat) (i : OSInfo)
    (h : 0 ≤ i.Confidence) : 0 ≤ (tcpTTLSig ttl i).Confidence := by
  unfold tcpTTLSig
  try dsimp only
  split_ifs <;> first | omega | (dsimp only; omega)

theorem analyzeTCPInfo_conf_nonneg (window ttl : Nat) (i : OSInfo)
    (h : 0 ≤ i.Confidence) : 0 ≤ (analyzeTCPInfo window ttl i).Confidence := by
  unfold analyzeTCPInfo
  exact tcpTTLSig_conf_nonneg _ _ (tcpLinuxSig_conf_nonneg _ _
    (tcpWindowsSig_conf_nonneg _ _ h))

theorem httpWindowsSig_conf_nonneg (ua : String) (i : OSInfo)
    (h : 0 ≤ i.Confidence) : 0 ≤ (httpWindowsSig ua i).Confidence := by
  unfold httpWindowsSig
  try dsimp only
  split_ifs <;> first | omega | (dsimp only; omega)

theorem httpLinuxSig_conf_nonneg (ua : String) (i : OSInfo)
    (h : 0 ≤ i.Confidence) : 0 ≤ (httpLinuxSig ua i).Confidence := by
  unfold httpLinuxSig
  try dsimp only
  split_ifs <;> first | omega | (dsimp only; omega)

theorem httpMacSig_conf_nonneg (ua : String) (i : OSInfo)
    (h : 0 ≤ i.Confidence) : 0 ≤ (httpMacSig ua i).Confidence := by
  unfold httpMacSig
  try dsimp only
  split_ifs <;> first | omega | (dsimp only; omega)

theorem httpAndroidSig_conf_nonneg (ua : String) (i : OSInfo)
    (h : 0 ≤ i.Confidence) : 0 ≤ (httpAndroidSig ua i).Confidence := by
  unfold httpAndroidSig
  try dsimp only
  split_ifs <;> first | omega | (dsimp only; omega)

theorem httpIOSSig_conf_nonneg (ua : String) (i : OSInfo)
    (h : 0 ≤ i.Confidence) : 0 ≤ (httpIOSSig ua i).Confidence := by
  unfold httpIOSSig
  try dsimp only
  split_ifs <;> first | omega | (dsimp only; omega)

theorem analyzeHTTPInfo_conf_nonneg (payload : String) (i : OSInfo)
    (h : 0 ≤ i.Confidence) : 0 ≤ (analyzeHTTPInfo payload i).Confidence := by
  unfold analyzeHTTPInfo
  dsimp only
  split_ifs with hUA
  · exact httpIOSSig_conf_nonneg _ _ (httpAndroidSig_conf_nonneg _ _
      (httpMacSig_conf_nonneg _ _ (httpLinuxSig_conf_nonneg _ _
        (httpWindowsSig_conf_nonneg _ _ h))))
  · exact h

theorem sshUbuntuSig_conf_nonneg (banner : String) (i : OSInfo)
    (h : 0 ≤ i.Confidence) : 0 ≤ (sshUbuntuSig banner i).Confidence := by
  unfold sshUbuntuSig
  try dsimp only
  split_ifs <;> first | omega | (dsimp only; omega)

theorem sshDebianSig_conf_nonneg (banner : String) (i : OSInfo)
    (h : 0 ≤ i.Confidence) : 0 ≤ (sshDebianSig banner i).Confidence := by
  unfold sshDebianSig
  try dsimp only
  split_ifs <;> first | omega | (dsimp only; omega)

theorem sshLinuxSig_conf_nonneg (banner : String) (i : OSInfo)
    (h : 0 ≤ i.Confidence) : 0 ≤ (sshLinuxSig banner i).Confidence := by
  unfold sshLinuxSig
  try dsimp only
  split_ifs <;> first | omega | (dsimp only; omega)

theorem analyzeSSHInfo_conf_nonneg (payload : String) (i : OSInfo)
    (h : 0 ≤ i.Confidence) : 0 ≤ (analyzeSSHInfo payload i).Confidence := by
  unfold analyzeSSHInfo
  dsimp only
  split_ifs with hPre
  · exact sshLinuxSig_conf_nonneg _ _ (sshDebianSig_conf_nonneg _ _
      (sshUbuntuSig_conf_nonneg _ _ h))
  · exact h

theorem analyzeDHCPInfo_conf_nonneg (n : Nat) (i : OSInfo)
    (h : 0 ≤ i.Confidence) : 0 ≤ (analyzeDHCPInfo n i).Confidence := by
  unfold analyzeDHCPInfo
  try dsimp only
  split_ifs <;> first | omega | (dsimp only; omega)

theorem analyzeDHCPInfo_conf_mono (n : Nat) (i : OSInfo) :
    i.Confidence ≤ (analyzeDHCPInfo n i).Confidence := by
  unfold analyzeDHCPInfo
  try dsimp only
  split_ifs <;> first | omega | (dsimp only; omega)

/-! ## More association-list facts -/

theorem lookup_mem {α : Type} {m : List (String × α)} {k : String} {w : α}
    (h : m.lookup k = some w) : (k, w) ∈ m := by
  obtain ⟨l1, l2, rfl, -⟩ := List.lookup_eq_some_iff.mp h
  simp

theorem entry_upsert_other (o : OSFingerprinter) {k ip : String} (v : OSInfo)
    (hne : ip ≠ k) : OSFingerprinter.entry (upsert o k v) ip =
      OSFingerprinter.entry o ip := by
  unfold OSFingerprinter.entry
  rw [lookup_upsert_other _ _ hne]

theorem entry_conf_nonneg {o : OSFingerprinter} (h : ConfNonneg o)
    (ip : String) : 0 ≤ (OSFingerprinter.entry o ip).Confidence := by
  unfold OSFingerprinter.entry
  cases hl : o.lookup ip with
  | none => simp [freshOSInfo]
  | some w => exact h _ (lookup_mem hl)

theorem applyCall_conf_nonneg {o : OSFingerprinter} (c : FPCall)
    (h : ConfNonneg o) : ConfNonneg (applyCall o c) := by
  cases c with
  | tcp s w t =>
    intro p hp
    rcases mem_upsert hp with hm | rfl
    · exact h p hm
    · exact analyzeTCPInfo_conf_nonneg _ _ _ (entry_conf_nonneg h s)
  | http s pl =>
    intro p hp
    rcases mem_upsert hp with hm | rfl
    · exact h p hm
    · exact analyzeHTTPInfo_conf_nonneg _ _ (entry_conf_nonneg h s)
  | ssh s pl =>
    intro p hp
    rcases mem_upsert hp with hm | rfl
    · exact h p hm
    · exact analyzeSSHInfo_conf_nonneg _ _ (entry_conf_nonneg h s)
  | dhcp s n =>
    intro p hp
    rcases mem_upsert hp with hm | rfl
    · exact h p hm
    · exact analyzeDHCPInfo_conf_nonneg _ _ (entry_conf_nonneg h s)

theorem foldl_applyCall_conf_nonneg (cs : List FPCall) :
    ∀ o : OSFingerprinter, ConfNonneg o →
      ConfNonneg (cs.foldl applyCall o) := by
  induction cs with
  | nil => intro o h; exact h
  | cons c cs ih =>
    intro o h
    exact ih _ (applyCall_conf_nonneg c h)

theorem runCalls_conf_nonneg (cs : List FPCall) : ConfNonneg (runCalls cs) :=
  foldl_applyCall_conf_nonneg cs NewOSFingerprinter (by intro p hp; simp [NewOSFingerprinter] at hp)

theorem lookup_map_pair {α β : Type} (f : α → β) (m : List (String × α))
    (k : String) :
    ((m.map fun p => (p.1, f p.2)).lookup k) = (m.lookup k).map f := by
  induction m with
  | nil => simp
  | cons p m ih =>
    obtain ⟨pk, pv⟩ := p
    simp only [List.map_cons, List.lookup_cons]
    cases hk : (k == pk) with
    | true => rfl
    | false => exact ih

/-! ## Claim C1 -/

/-- C1 is false as stated: a single `AnalyzeHTTP` call can decrease the
stored confidence. After a User-Agent mentioning Windows NT 10.0 the
confidence is 95; a second call whose User-Agent mentions only Windows NT
overwrites it with 90. -/
theorem C1_confidence_decrease_counterexample :
    (OSFingerprinter.entry
      (OSFingerprinter.AnalyzeHTTP
        (OSFingerprinter.AnalyzeHTTP NewOSFingerprinter "10.0.0.5"
          "User-Agent: Mozilla (Windows NT 10.0)")
        "10.0.0.5" "User-Agent: Mozilla (Windows NT)")
      "10.0.0.5").Confidence
    < (OSFingerprinter.entry
        (OSFingerprinter.AnalyzeHTTP NewOSFingerprinter "10.0.0.5"
          "User-Agent: Mozilla (Windows NT 10.0)")
        "10.0.0.5").Confidence := by
  decide

/-- C1 amended: after any single analyzer call the stored confidence stays
non-negative, and `AnalyzeDHCP` in particular never decreases it;
`AnalyzeTCP`, `AnalyzeHTTP` and `AnalyzeSSH` may overwrite the score with a
fixed lower value. -/
theorem C1_conf_nonneg_and_dhcp_mono :
    (∀ (o : OSFingerprinter) (c : FPCall) (ip : String),
      0 ≤ (OSFingerprinter.entry o ip).Confidence →
      0 ≤ (OSFingerprinter.entry (applyCall o c) ip).Confidence) ∧
    (∀ (o : OSFingerprinter) (srcIP : String) (n : Nat) (ip : String),
      (OSFingerprinter.entry o ip).Confidence ≤
        (OSFingerprinter.entry (o.AnalyzeDHCP srcIP n) ip).Confidence) := by
  constructor
  · intro o c ip h
    cases c with
    | tcp s w t =>
      show 0 ≤ (OSFingerprinter.entry (o.AnalyzeTCP s w t) ip).Confidence
      unfold OSFingerprinter.AnalyzeTCP
      by_cases hip : ip = s
      · subst hip
        rw [entry_upsert_self]
        exact analyzeTCPInfo_conf_nonneg _ _ _ h
      · rw [entry_upsert_other _ _ hip]
        exact h
    | http s pl =>
      show 0 ≤ (OSFingerprinter.entry (o.AnalyzeHTTP s pl) ip).Confidence
      unfold OSFingerprinter.AnalyzeHTTP
      by_cases hip : ip = s
      · subst hip
        rw [entry_upsert_self]
        exact analyzeHTTPInfo_conf_nonneg _ _ h
      · rw [entry_upsert_other _ _ hip]
        exact h
    | ssh s pl =>
      show 0 ≤ (OSFingerprinter.entry (o.AnalyzeSSH s pl) ip).Confidence
      unfold OSFingerprinter.AnalyzeSSH
      by_cases hip : ip = s
      · subst hip
        rw [entry_upsert_self]
        exact analyzeSSHInfo_conf_nonneg _ _ h
      · rw [entry_upsert_other _ _ hip]
        exact h
    | dhcp s n =>
      show 0 ≤ (OSFingerprinter.entry (o.AnalyzeDHCP s n) ip).Confidence
      unfold OSFingerprinter.AnalyzeDHCP
      by_cases hip : ip = s
      · subst hip
        rw [entry_upsert_self]
        exact analyzeDHCPInfo_conf_nonneg _ _ h
      · rw [entry_upsert_other _ _ hip]
        exact h
  · intro o s n ip
    unfold OSFingerprinter.AnalyzeDHCP
    by_cases hip : ip = s
    · subst hip
      rw [entry_upsert_self]
      exact analyzeDHCPInfo_conf_mono _ _
    · rw [entry_upsert_other _ _ hip]

/-- Witness for the amended C1 at a concrete state and call. -/
theorem C1_conf_nonneg_and_dhcp_mono_witness :
    0 ≤ (OSFingerprinter.entry
      (applyCall NewOSFingerprinter (FPCall.dhcp "10.0.0.5" 300))
      "10.0.0.5").Confidence :=
  C1_conf_nonneg_and_dhcp_mono.1 NewOSFingerprinter
    (FPCall.dhcp "10.0.0.5" 300) "10.0.0.5" (by decide)

/-! ## Idempotence facts for the HTTP and SSH blocks.

Every HTTP block's guard reads only the lowered payload, so a fired block
produces a label and confidence that do not depend on the incoming state,
and an unfired block is the identity. -/

theorem httpWindowsSig_fired {ua : String}
    (h : strContains ua "windows nt" ∨ strContains ua "win64" ∨
      strContains ua "wow64") (i i' : OSInfo) :
    (httpWindowsSig ua i).OSType = (httpWindowsSig ua i').OSType ∧
    (httpWindowsSig ua i).Confidence = (httpWindowsSig ua i').Confidence := by
  unfold httpWindowsSig
  try dsimp only
  split_ifs <;> simp_all

theorem httpWindowsSig_id {ua : String}
    (h : ¬ (strContains ua "windows nt" ∨ strContains ua "win64" ∨
      strContains ua "wow64")) (i : OSInfo) : httpWindowsSig ua i = i := by
  unfold httpWindowsSig
  rw [if_neg h]

theorem httpLinuxSig_fired {ua : String}
    (h : strContains ua "linux" ∧ ¬ strContains ua "android") (i i' : OSInfo) :
    (httpLinuxSig ua i).OSType = (httpLinuxSig ua i').OSType ∧
    (httpLinuxSig ua i).Confidence = (httpLinuxSig ua i').Confidence := by
  unfold httpLinuxSig
  try dsimp only
  split_ifs <;> simp_all

theorem httpLinuxSig_id {ua : String}
    (h : ¬ (strContains ua "linux" ∧ ¬ strContains ua "android"))
    (i : OSInfo) : httpLinuxSig ua i = i := by
  unfold httpLinuxSig
  rw [if_neg h]

theorem httpMacSig_fired {ua : String}
    (h : strContains ua "macintosh" ∨ strContains ua "mac os x")
    (i i' : OSInfo) :
    (httpMacSig ua i).OSType = (httpMacSig ua i').OSType ∧
    (httpMacSig ua i).Confidence = (httpMacSig ua i').Confidence := by
  unfold httpMacSig
  split_ifs <;> simp_all

theorem httpMacSig_id {ua : String}
    (h : ¬ (strContains ua "macintosh" ∨ strContains ua "mac os x"))
    (i : OSInfo) : httpMacSig ua i = i := by
  unfold httpMacSig
  rw [if_neg h]

theorem httpAndroidSig_fired {ua : String} (h : strContains ua "android")
    (i i' : OSInfo) :
    (httpAndroidSig ua i).OSType = (httpAndroidSig ua i').OSType ∧
    (httpAndroidSig ua i).Confidence = (httpAndroidSig ua i').Confidence := by
  unfold httpAndroidSig
  split_ifs <;> simp_all

theorem httpAndroidSig_id {ua : String} (h : ¬ strContains ua "android")
    (i : OSInfo) : httpAndroidSig ua i = i := by
  unfold httpAndroidSig
  rw [if_neg (by simpa using h)]

theorem httpIOSSig_fired {ua : String}
    (h : strContains ua "iphone" ∨ strContains ua "ipad") (i i' : OSInfo) :
    (httpIOSSig ua i).OSType = (httpIOSSig ua i').OSType ∧
    (httpIOSSig ua i).Confidence = (httpIOSSig ua i').Confidence := by
  unfold httpIOSSig
  split_ifs <;> simp_all

theorem httpIOSSig_id {ua : String}
    (h : ¬ (strContains ua "iphone" ∨ strContains ua "ipad")) (i : OSInfo) :
    httpIOSSig ua i = i := by
  unfold httpIOSSig
  rw [if_neg h]

theorem httpBlocks_type_conf_idem (ua : String) (i : OSInfo) :
    (httpIOSSig ua (httpAndroidSig ua (httpMacSig ua (httpLinuxSig ua
        (httpWindowsSig ua (httpIOSSig ua (httpAndroidSig ua (httpMacSig ua
          (httpLinuxSig ua (httpWindowsSig ua i)))))))))).OSType =
      (httpIOSSig ua (httpAndroidSig ua (httpMacSig ua (httpLinuxSig ua
        (httpWindowsSig ua i))))).OSType ∧
    (httpIOSSig ua (httpAndroidSig ua (httpMacSig ua (httpLinuxSig ua
        (httpWindowsSig ua (httpIOSSig ua (httpAndroidSig ua (httpMacSig ua
          (httpLinuxSig ua (httpWindowsSig ua i)))))))))).Confidence =
      (httpIOSSig ua (httpAndroidSig ua (httpMacSig ua (httpLinuxSig ua
        (httpWindowsSig ua i))))).Confidence := by
  by_cases h5 : strContains ua "iphone" ∨ strContains ua "ipad"
  · exact httpIOSSig_fired h5 _ _
  · simp only [httpIOSSig_id h5]
    by_cases h4 : strContains ua "android"
    · exact httpAndroidSig_fired h4 _ _
    · simp only [httpAndroidSig_id h4]
      by_cases h3 : strContains ua "macintosh" ∨ strContains ua "mac os x"
      · exact httpMacSig_fired h3 _ _
      · simp only [httpMacSig_id h3]
        by_cases h2 : strContains ua "linux" ∧ ¬ strContains ua "android"
        · exact httpLinuxSig_fired h2 _ _
        · simp only [httpLinuxSig_id h2]
          by_cases h1 : strContains ua "windows nt" ∨ strContains ua "win64" ∨
            strContains ua "wow64"
          · exact httpWindowsSig_fired h1 _ _
          · simp only [httpWindowsSig_id h1]
            exact ⟨trivial, trivial⟩

theorem analyzeHTTPInfo_type_conf_idem (p : String) (i : OSInfo) :
    (analyzeHTTPInfo p (analyzeHTTPInfo p i)).OSType =
      (analyzeHTTPInfo p i).OSType ∧
    (analyzeHTTPInfo p (analyzeHTTPInfo p i)).Confidence =
      (analyzeHTTPInfo p i).Confidence := by
  unfold analyzeHTTPInfo
  dsimp only
  by_cases hUA : strContains p "User-Agent:"
  · rw [if_neg (by simpa using hUA), if_neg (by simpa using hUA)]
    exact httpBlocks_type_conf_idem _ _
  · rw [if_pos (by simpa using hUA)]
    exact ⟨rfl, rfl⟩

theorem sshUbuntuSig_fired {banner : String} (h : strContains banner "ubuntu")
    (i : OSInfo) : (sshUbuntuSig banner i).OSType = "Linux (Ubuntu)" ∧
      (sshUbuntuSig banner i).Confidence = 85 := by
  unfold sshUbuntuSig
  rw [if_pos h]
  exact ⟨rfl, rfl⟩

theorem sshUbuntuSig_id {banner : String} (h : ¬ strContains banner "ubuntu")
    (i : OSInfo) : sshUbuntuSig banner i = i := by
  unfold sshUbuntuSig
  rw [if_neg (by simpa using h)]

theorem sshDebianSig_fired {banner : String} (h : strContains banner "debian")
    (i : OSInfo) : (sshDebianSig banner i).OSType = "Linux (Debian)" ∧
      (sshDebianSig banner i).Confidence = 85 := by
  unfold sshDebianSig
  rw [if_pos h]
  exact ⟨rfl, rfl⟩

theorem sshDebianSig_id {banner : String} (h : ¬ strContains banner "debian")
    (i : OSInfo) : sshDebianSig banner i = i := by
  unfold sshDebianSig
  rw [if_neg (by simpa using h)]

theorem sshLinuxSig_of_not_unknown {banner : String} {i : OSInfo}
    (h : i.OSType ≠ "Unknown") : sshLinuxSig banner i = i := by
  unfold sshLinuxSig
  rw [if_neg (by intro hc; exact h hc.2)]

theorem sshLinuxSig_double (banner : String) (i : OSInfo) :
    sshLinuxSig banner (sshLinuxSig banner i) = sshLinuxSig banner i := by
  unfold sshLinuxSig
  try dsimp only
  split_ifs <;> simp_all

theorem sshBlocks_type_conf_idem (banner : String) (i : OSInfo) :
    (sshLinuxSig banner (sshDebianSig banner (sshUbuntuSig banner
        (sshLinuxSig banner (sshDebianSig banner
          (sshUbuntuSig banner i)))))).OSType =
      (sshLinuxSig banner (sshDebianSig banner
        (sshUbuntuSig banner i))).OSType ∧
    (sshLinuxSig banner (sshDebianSig banner (sshUbuntuSig banner
        (sshLinuxSig banner (sshDebianSig banner
          (sshUbuntuSig banner i)))))).Confidence =
      (sshLinuxSig banner (sshDebianSig banner
        (sshUbuntuSig banner i))).Confidence := by
  by_cases hd : strContains banner "debian"
  · have hL : ∀ x : OSInfo,
        sshLinuxSig banner (sshDebianSig banner x) = sshDebianSig banner x :=
      fun x => sshLinuxSig_of_not_unknown (by
        rw [(sshDebianSig_fired hd x).1]
        decide)
    rw [hL, hL]
    constructor
    · rw [(sshDebianSig_fired hd _).1, (sshDebianSig_fired hd _).1]
    · rw [(sshDebianSig_fired hd _).2, (sshDebianSig_fired hd _).2]
  · simp only [sshDebianSig_id hd]
    by_cases hu : strContains banner "ubuntu"
    · have hL : ∀ x : OSInfo,
          sshLinuxSig banner (sshUbuntuSig banner x) = sshUbuntuSig banner x :=
        fun x => sshLinuxSig_of_not_unknown (by
          rw [(sshUbuntuSig_fired hu x).1]
          decide)
      rw [hL, hL]
      constructor
      · rw [(sshUbuntuSig_fired hu _).1, (sshUbuntuSig_fired hu _).1]
      · rw [(sshUbuntuSig_fired hu _).2, (sshUbuntuSig_fired hu _).2]
    · simp only [sshUbuntuSig_id hu]
      rw [sshLinuxSig_double]
      exact ⟨rfl, rfl⟩

theorem analyzeSSHInfo_type_conf_idem (p : String) (i : OSInfo) :
    (analyzeSSHInfo p (analyzeSSHInfo p i)).OSType =
      (analyzeSSHInfo p i).OSType ∧
    (analyzeSSHInfo p (analyzeSSHInfo p i)).Confidence =
      (analyzeSSHInfo p i).Confidence := by
  unfold analyzeSSHInfo
  dsimp only
  by_cases hPre : strHasPre p "SSH-"
  · rw [if_neg (by simpa using hPre), if_neg (by simpa using hPre)]
    exact sshBlocks_type_conf_idem _ _
  · rw [if_pos (by simpa using hPre)]
    exact ⟨rfl, rfl⟩

/-! ## Claim C2 -/

/-- C2 is false as stated: `AnalyzeDHCP` is not idempotent. Two identical
calls with a non-empty payload leave confidence 10 and a duplicated signal,
while one call leaves confidence 5. -/
theorem C2_not_idempotent_counterexample :
    OSFingerprinter.entry
      (OSFingerprinter.AnalyzeDHCP
        (OSFingerprinter.AnalyzeDHCP NewOSFingerprinter "10.0.0.5" 300)
        "10.0.0.5" 300) "10.0.0.5"
    ≠ OSFingerprinter.entry
        (OSFingerprinter.AnalyzeDHCP NewOSFingerprinter "10.0.0.5" 300)
        "10.0.0.5" := by
  decide

/-- C2 amended: `AnalyzeHTTP` and `AnalyzeSSH` are idempotent with respect
to the stored label and confidence — repeating the identical payload leaves
both unchanged (the signal list still grows) — while `AnalyzeTCP` and
`AnalyzeDHCP` are not idempotent: a repeated identical input can increase
the confidence again. -/
theorem C2_http_ssh_label_conf_idempotent :
    ∀ (o : OSFingerprinter) (ip payload : String),
      ((OSFingerprinter.entry
          ((o.AnalyzeHTTP ip payload).AnalyzeHTTP ip payload) ip).OSType =
        (OSFingerprinter.entry (o.AnalyzeHTTP ip payload) ip).OSType ∧
       (OSFingerprinter.entry
          ((o.AnalyzeHTTP ip payload).AnalyzeHTTP ip payload) ip).Confidence =
        (OSFingerprinter.entry (o.AnalyzeHTTP ip payload) ip).Confidence) ∧
      ((OSFingerprinter.entry
          ((o.AnalyzeSSH ip payload).AnalyzeSSH ip payload) ip).OSType =
        (OSFingerprinter.entry (o.AnalyzeSSH ip payload) ip).OSType ∧
       (OSFingerprinter.entry
          ((o.AnalyzeSSH ip payload).AnalyzeSSH ip payload) ip).Confidence =
        (OSFingerprinter.entry (o.AnalyzeSSH ip payload) ip).Confidence) := by
  intro o ip payload
  constructor
  · unfold OSFingerprinter.AnalyzeHTTP
    rw [entry_upsert_self, entry_upsert_self]
    exact analyzeHTTPInfo_type_conf_idem _ _
  · unfold OSFingerprinter.AnalyzeSSH
    rw [entry_upsert_self, entry_upsert_self]
    exact analyzeSSHInfo_type_conf_idem _ _

/-! ## Claim C3 -/

/-- C3: for every sequence of analyzer calls, every confidence reported by
`GetResults` lies in the closed interval [0, 100]. -/
theorem C3_final_confidence_bound (cs : List FPCall) (ip : String)
    (info : OSInfo)
    (h : ((runCalls cs).GetResults).lookup ip = some info) :
    0 ≤ info.Confidence ∧ info.Confidence ≤ 100 := by
  unfold OSFingerprinter.GetResults at h
  rw [lookup_map_pair] at h
  cases hl : (runCalls cs).lookup ip with
  | none => rw [hl] at h; simp at h
  | some w =>
    rw [hl] at h
    have hcap : capInfo w = info := by simpa using h
    subst hcap
    have h0 : 0 ≤ w.Confidence :=
      runCalls_conf_nonneg cs _ (lookup_mem hl)
    unfold capInfo
    split_ifs with hc
    · exact ⟨by norm_num, by norm_num⟩
    · exact ⟨h0, by omega⟩

/-- Witness for C3 on a concrete call sequence. -/
theorem C3_final_confidence_bound_witness :
    0 ≤ ({ OSType := "Unknown", Confidence := 5,
           Signals := ["dhcp_seen"] } : OSInfo).Confidence ∧
    ({ OSType := "Unknown", Confidence := 5,
       Signals := ["dhcp_seen"] } : OSInfo).Confidence ≤ 100 :=
  C3_final_confidence_bound [FPCall.dhcp "10.0.0.5" 300] "10.0.0.5" _
    (by decide)

/-! ## Claim C4 -/

theorem charListLt_irrefl : ∀ as : List Char, charListLt as as = false := by
  intro as
  induction as with
  | nil => rfl
  | cons c cs ih => simp [charListLt, ih]

theorem charListLt_asymm :
    ∀ as bs : List Char, charListLt as bs = true → charListLt bs as = false := by
  intro as
  induction as with
  | nil =>
    intro bs h
    cases bs with
    | nil => simpa [charListLt] using h
    | cons d ds => rfl
  | cons c cs ih =>
    intro bs h
    cases bs with
    | nil => simp [charListLt] at h
    | cons d ds =>
      unfold charListLt at h ⊢
      rcases lt_trichotomy c d with hcd | hcd | hcd
      · simp [hcd, lt_asymm hcd]
      · subst hcd
        simp only [lt_irrefl, if_false] at h ⊢
        exact ih ds h
      · simp [hcd, lt_asymm hcd] at h

theorem charListLt_eq_of_not :
    ∀ as bs : List Char, charListLt as bs = false → charListLt bs as = false →
      as = bs := by
  intro as
  induction as with
  | nil =>
    intro bs h1 _
    cases bs with
    | nil => rfl
    | cons d ds => simp [charListLt] at h1
  | cons c cs ih =>
    intro bs h1 h2
    cases bs with
    | nil => simp [charListLt] at h2
    | cons d ds =>
      unfold charListLt at h1 h2
      rcases lt_trichotomy c d with hcd | hcd | hcd
      · simp [hcd] at h1
      · subst hcd
        simp [lt_irrefl] at h1 h2
        rw [ih ds h1 h2]
      · simp [hcd, not_lt_of_gt hcd] at h2

theorem strLtB_asymm {A B : String} (h : strLtB A B = true) :
    strLtB B A = false :=
  charListLt_asymm _ _ h

theorem strLtB_ne {A B : String} (h : strLtB A B = true) : A ≠ B := by
  intro he
  subst he
  rw [show strLtB A A = charListLt A.data A.data from rfl,
    charListLt_irrefl] at h
  exact Bool.false_ne_true h

theorem strLtB_eq_of_not {A B : String} (h1 : strLtB A B = false)
    (h2 : strLtB B A = false) : A = B := by
  cases A with
  | mk as =>
    cases B with
    | mk bs =>
      rw [charListLt_eq_of_not as bs h1 h2]

theorem key_norm_symm (A B : String) (pa pb : Nat) :
    (if strLtB A B || (A == B && decide (pa < pb)) then
      A ++ ":" ++ toString pa ++ "-" ++ B ++ ":" ++ toString pb
    else B ++ ":" ++ toString pb ++ "-" ++ A ++ ":" ++ toString pa) =
    (if strLtB B A || (B == A && decide (pb < pa)) then
      B ++ ":" ++ toString pb ++ "-" ++ A ++ ":" ++ toString pa
    else A ++ ":" ++ toString pa ++ "-" ++ B ++ ":" ++ toString pb) := by
  cases hab : strLtB A B with
  | true =>
    have hba : strLtB B A = false := strLtB_asymm hab
    have hne : (B == A) = false :=
      beq_eq_false_iff_ne.mpr (Ne.symm (strLtB_ne hab))
    simp [hab, hba, hne]
  | false =>
    cases hba : strLtB B A with
    | true =>
      have hne : (A == B) = false :=
        beq_eq_false_iff_ne.mpr (Ne.symm (strLtB_ne hba))
      simp [hab, hba, hne]
    | false =>
      have heq : A = B := strLtB_eq_of_not hab hba
      subst heq
      simp only [hab, hba, beq_self_eq_true, Bool.true_and, Bool.false_or]
      rcases Nat.lt_trichotomy pa pb with h | h | h
      · simp [h, Nat.not_lt.mpr (Nat.le_of_lt h)]
      · subst h
        simp
      · simp [h, Nat.not_lt.mpr (Nat.le_of_lt h)]

/-- C4: both normalized flow keys are direction-symmetric; the key computed
for (A, pA, B, pB) equals the key computed for (B, pB, A, pA), for the TCP
stream key and for the UDP flow key alike. -/
theorem C4_flow_key_symmetric :
    ∀ (A B : String) (pa pb : Nat),
      getStreamKey A B pa pb = getStreamKey B A pb pa ∧
      getFlowKey A B pa pb = getFlowKey B A pb pa := by
  intro A B pa pb
  unfold getStreamKey getFlowKey
  exact ⟨key_norm_symm A B pa pb, key_norm_symm A B pa pb⟩

/-! ## Claim C7 -/

/-- C7: the service classifier is the fixed table plus the torrent range
rule: each listed port maps to its service, every port in [6881, 6889] and
port 6969 map to "torrent", every other port maps to "unknown", and the
three sample classifications hold. -/
theorem C7_identifyService_spec :
    (identifyService 20 = "ftp-data" ∧ identifyService 21 = "ftp" ∧
     identifyService 22 = "ssh" ∧ identifyService 23 = "telnet" ∧
     identifyService 25 = "smtp" ∧ identifyService 53 = "dns" ∧
     identifyService 67 = "dhcp" ∧ identifyService 68 = "dhcp" ∧
     identifyService 80 = "http" ∧ identifyService 110 = "pop3" ∧
     identifyService 143 = "imap" ∧ identifyService 443 = "https" ∧
     identifyService 445 = "smb" ∧ identifyService 3306 = "mysql" ∧
     identifyService 5432 = "postgresql" ∧ identifyService 3389 = "rdp") ∧
    (∀ port : Nat, 6881 ≤ port → port ≤ 6889 →
      identifyService port = "torrent") ∧
    identifyService 6969 = "torrent" ∧
    (∀ port : Nat, port ∉ (servicesTable.map Prod.fst) →
      identifyService port = "unknown") ∧
    (identifyService 6885 = "torrent" ∧ identifyService 22 = "ssh" ∧
     identifyService 9999 = "unknown") := by
  refine ⟨by decide, ?_, by decide, ?_, by decide⟩
  · intro port h1 h2
    interval_cases port <;> decide
  · intro port hmem
    have hlk : servicesTable.lookup port = none := by
      rw [List.lookup_eq_none_iff]
      intro p hp
      have hne : port ≠ p.1 := fun he =>
        hmem (by rw [he]; exact List.mem_map_of_mem Prod.fst hp)
      simpa using hne
    have hrange : ¬ (6881 ≤ port ∧ port ≤ 6889) := by
      intro ⟨ha, hb⟩
      apply hmem
      unfold servicesTable
      interval_cases port <;> decide
    unfold identifyService
    rw [hlk, if_neg hrange]

/-- Witness for C7 at concrete ports, discharging the range and
non-membership hypotheses. -/
theorem C7_identifyService_spec_witness :
    identifyService 6885 = "torrent" ∧ identifyService 9999 = "unknown" :=
  ⟨C7_identifyService_spec.2.1 6885 (by decide) (by decide),
   C7_identifyService_spec.2.2.2.1 9999 (by decide)⟩

/-! ## Claim C8

Bounded bitmask facts used to translate the masked byte comparisons of
`net.IPNet.Contains` into arithmetic range conditions. -/

theorem land_id : ∀ b : Nat, b < 256 → b &&& 255 = b := by decide

theorem land240_16 :
    ∀ b : Nat, b < 256 → ((16:Nat) &&& 240 = b &&& 240 ↔ 16 ≤ b ∧ b ≤ 31) := by
  decide

theorem land254_252 :
    ∀ b : Nat, b < 256 →
      ((252:Nat) &&& 254 = b &&& 254 ↔ (b = 252 ∨ b = 253)) := by
  decide

theorem land192_128 :
    ∀ b : Nat, b < 256 →
      ((128:Nat) &&& 192 = b &&& 192 ↔ 128 ≤ b ∧ b ≤ 191) := by
  decide

theorem land_zero_all : ∀ b : Nat, b < 256 → ((0:Nat) &&& 0 = b &&& 0) := by
  decide

theorem isPublic_false_iff (ip : List Nat) (hlen : ip.length = 16)
    (hb : ∀ b ∈ ip, b < 256) :
    (isPublicIP (some ip) = false ↔ specPrivate ip) := by
  rcases ip with _ | ⟨b0, ip⟩
  · simp at hlen
  rcases ip with _ | ⟨b1, ip⟩
  · simp at hlen
  rcases ip with _ | ⟨b2, ip⟩
  · simp at hlen
  rcases ip with _ | ⟨b3, ip⟩
  · simp at hlen
  rcases ip with _ | ⟨b4, ip⟩
  · simp at hlen
  rcases ip with _ | ⟨b5, ip⟩
  · simp at hlen
  rcases ip with _ | ⟨b6, ip⟩
  · simp at hlen
  rcases ip with _ | ⟨b7, ip⟩
  · simp at hlen
  rcases ip with _ | ⟨b8, ip⟩
  · simp at hlen
  rcases ip with _ | ⟨b9, ip⟩
  · simp at hlen
  rcases ip with _ | ⟨b10, ip⟩
  · simp at hlen
  rcases ip with _ | ⟨b11, ip⟩
  · simp at hlen
  rcases ip with _ | ⟨b12, ip⟩
  · simp at hlen
  rcases ip with _ | ⟨b13, ip⟩
  · simp at hlen
  rcases ip with _ | ⟨b14, ip⟩
  · simp at hlen
  rcases ip with _ | ⟨b15, ip⟩
  · simp at hlen
  have htail : ip = [] := by simpa using hlen
  subst htail
  have h0 : b0 < 256 := hb _ (by simp)
  have h1 : b1 < 256 := hb _ (by simp)
  have h2 : b2 < 256 := hb _ (by simp)
  have h3 : b3 < 256 := hb _ (by simp)
  have h4 : b4 < 256 := hb _ (by simp)
  have h5 : b5 < 256 := hb _ (by simp)
  have h6 : b6 < 256 := hb _ (by simp)
  have h7 : b7 < 256 := hb _ (by simp)
  have h8 : b8 < 256 := hb _ (by simp)
  have h9 : b9 < 256 := hb _ (by simp)
  have h10 : b10 < 256 := hb _ (by simp)
  have h11 : b11 < 256 := hb _ (by simp)
  have h12 : b12 < 256 := hb _ (by simp)
  have h13 : b13 < 256 := hb _ (by simp)
  have h14 : b14 < 256 := hb _ (by simp)
  have h15 : b15 < 256 := hb _ (by simp)
  by_cases hmap : b0 = 0 ∧ b1 = 0 ∧ b2 = 0 ∧ b3 = 0 ∧ b4 = 0 ∧ b5 = 0 ∧ b6 = 0 ∧ b7 = 0 ∧ b8 = 0 ∧ b9 = 0 ∧ b10 = 255 ∧ b11 = 255
  · obtain ⟨rfl, rfl, rfl, rfl, rfl, rfl, rfl, rfl, rfl, rfl, rfl, rfl⟩ := hmap
    simp [isPublicIP, privateRanges, netContains, ipTo4, v4MappedPre, maskMatch,
      specPrivate, specPrivateV4,
      land_id _ h12, land_id _ h13, land_id _ h14, land_id _ h15,
      land240_16 _ h13, land254_252 _ h12, land192_128 _ h13,
      show (10:Nat) &&& 255 = 10 from by decide,
      show (172:Nat) &&& 255 = 172 from by decide,
      show (192:Nat) &&& 255 = 192 from by decide,
      show (168:Nat) &&& 255 = 168 from by decide,
      show (127:Nat) &&& 255 = 127 from by decide,
      show (169:Nat) &&& 255 = 169 from by decide,
      show (254:Nat) &&& 255 = 254 from by decide]
    omega
  · simp [isPublicIP, privateRanges, netContains, ipTo4, v4MappedPre, maskMatch,
      specPrivate, specPrivateV4, hmap,
      land_id _ h0, land_id _ h1, land_id _ h2, land_id _ h3, land_id _ h4, land_id _ h5, land_id _ h6, land_id _ h7, land_id _ h8, land_id _ h9, land_id _ h10, land_id _ h11, land_id _ h12, land_id _ h13, land_id _ h14, land_id _ h15,
      land254_252 _ h0, land192_128 _ h1,
      land_zero_all _ h1, land_zero_all _ h2, land_zero_all _ h3,
      land_zero_all _ h4, land_zero_all _ h5, land_zero_all _ h6,
      land_zero_all _ h7, land_zero_all _ h8, land_zero_all _ h9,
      land_zero_all _ h10, land_zero_all _ h11, land_zero_all _ h12,
      land_zero_all _ h13, land_zero_all _ h14, land_zero_all _ h15,
      show (0:Nat) &&& 255 = 0 from by decide,
      show (1:Nat) &&& 255 = 1 from by decide,
      show (254:Nat) &&& 255 = 254 from by decide]
    omega

/-- C8: the address classifier is a pure function of the parse result:
false when the address fails to parse, false exactly when the parsed
address lies in one of the eight private/reserved ranges, and true for
every other address. -/
theorem C8_isPublicIP_spec :
    isPublicIP none = false ∧
    ∀ ip : List Nat, ip.length = 16 → (∀ b ∈ ip, b < 256) →
      ((specPrivate ip → isPublicIP (some ip) = false) ∧
       (¬ specPrivate ip → isPublicIP (some ip) = true)) := by
  refine ⟨rfl, fun ip hlen hb => ?_⟩
  have hiff := isPublic_false_iff ip hlen hb
  constructor
  · exact fun hp => hiff.mpr hp
  · intro hp
    cases hpub : isPublicIP (some ip) with
    | false => exact absurd (hiff.mp hpub) hp
    | true => rfl

/-- Witness for C8: the v4-mapped parse of 8.8.8.8 is public, the v4-mapped
parse of 10.1.2.3 is not. -/
theorem C8_isPublicIP_spec_witness :
    isPublicIP (some [0, 0, 0, 0, 0, 0, 0, 0, 0, 0, 255, 255, 8, 8, 8, 8]) =
      true ∧
    isPublicIP (some [0, 0, 0, 0, 0, 0, 0, 0, 0, 0, 255, 255, 10, 1, 2, 3]) =
      false :=
  ⟨(C8_isPublicIP_spec.2 _ (by decide) (by decide)).2 (by
      simp [specPrivate, specPrivateV4, ipTo4, v4MappedPre]),
   (C8_isPublicIP_spec.2 _ (by decide) (by decide)).1 (by
      simp [specPrivate, specPrivateV4, ipTo4, v4MappedPre])⟩

/-! ## Claims C5 and C6: tracker fold lemmas -/


theorem tcpMutate_SrcIP (a : String) (h : TCPHeader) (ts : Int)
    (app : Option Nat) (s : TCPStream) :
    (tcpMutate a h ts app s).SrcIP = s.SrcIP := by
  unfold tcpMutate
  dsimp only
  split_ifs <;> rfl

theorem tcpMutate_SrcPort (a : String) (h : TCPHeader) (ts : Int)
    (app : Option Nat) (s : TCPStream) :
    (tcpMutate a h ts app s).SrcPort = s.SrcPort := by
  unfold tcpMutate
  dsimp only
  split_ifs <;> rfl

theorem tcpMutate_StartTime (a : String) (h : TCPHeader) (ts : Int)
    (app : Option Nat) (s : TCPStream) :
    (tcpMutate a h ts app s).StartTime = s.StartTime := by
  unfold tcpMutate
  dsimp only
  split_ifs <;> rfl

theorem tcpMutate_EndTime (a : String) (h : TCPHeader) (ts : Int)
    (app : Option Nat) (s : TCPStream) :
    (tcpMutate a h ts app s).EndTime = ts := by
  unfold tcpMutate
  dsimp only
  split_ifs <;> rfl

theorem tcpMutate_sent_of (a : String) (h : TCPHeader) (ts : Int)
    (app : Option Nat) (s : TCPStream)
    (hd : a = s.SrcIP ∧ h.SrcPort = s.SrcPort) :
    (tcpMutate a h ts app s).BytesSent =
      s.BytesSent + effPayloadLen h.payloadLen app ∧
    (tcpMutate a h ts app s).BytesReceived = s.BytesReceived := by
  unfold tcpMutate
  dsimp only
  split_ifs <;> simp_all

theorem tcpMutate_recv_of (a : String) (h : TCPHeader) (ts : Int)
    (app : Option Nat) (s : TCPStream)
    (hd : ¬ (a = s.SrcIP ∧ h.SrcPort = s.SrcPort)) :
    (tcpMutate a h ts app s).BytesSent = s.BytesSent ∧
    (tcpMutate a h ts app s).BytesReceived =
      s.BytesReceived + effPayloadLen h.payloadLen app := by
  unfold tcpMutate
  dsimp only
  split_ifs <;> simp_all

theorem processEvent_existing (k : String) (s : TCPStream) (e : TCPEvent)
    (hek : eventKey e = k) :
    TCPTracker.processEvent { streams := [(k, s)], Connections := [] } e =
      { streams := [(k, tcpMutate e.srcIP e.tcp e.timestamp e.app s)],
        Connections := [] } := by
  unfold TCPTracker.processEvent TCPTracker.ProcessPacket
  dsimp only
  rw [show getStreamKey e.srcIP e.dstIP e.tcp.SrcPort e.tcp.DstPort = k from hek]
  simp [upsert, List.lookup_cons]

theorem processEvent_fresh (e : TCPEvent) :
    TCPTracker.processEvent NewTCPTracker e =
      { streams := [(eventKey e,
          tcpMutate e.srcIP e.tcp e.timestamp e.app
            (newStream e.srcIP e.dstIP e.tcp e.timestamp))],
        Connections := [] } := by
  unfold TCPTracker.processEvent TCPTracker.ProcessPacket NewTCPTracker eventKey
  simp [upsert]

theorem foldl_processEvent_single (k : String) (rest : List TCPEvent) :
    ∀ s : TCPStream, (∀ e ∈ rest, eventKey e = k) →
      rest.foldl TCPTracker.processEvent
          { streams := [(k, s)], Connections := [] } =
        { streams := [(k, rest.foldl
            (fun acc e => tcpMutate e.srcIP e.tcp e.timestamp e.app acc) s)],
          Connections := [] } := by
  induction rest with
  | nil => intro s _; rfl
  | cons e rest ih =>
    intro s hk
    rw [List.foldl_cons, processEvent_existing k s e (hk e (by simp)),
      ih _ (fun x hx => hk x (by simp [hx])), List.foldl_cons]

theorem tcpFold_SrcIP (rest : List TCPEvent) : ∀ s : TCPStream,
    (rest.foldl (fun acc e => tcpMutate e.srcIP e.tcp e.timestamp e.app acc)
      s).SrcIP = s.SrcIP := by
  induction rest with
  | nil => intro s; rfl
  | cons e rest ih =>
    intro s
    rw [List.foldl_cons, ih, tcpMutate_SrcIP]

theorem tcpFold_SrcPort (rest : List TCPEvent) : ∀ s : TCPStream,
    (rest.foldl (fun acc e => tcpMutate e.srcIP e.tcp e.timestamp e.app acc)
      s).SrcPort = s.SrcPort := by
  induction rest with
  | nil => intro s; rfl
  | cons e rest ih =>
    intro s
    rw [List.foldl_cons, ih, tcpMutate_SrcPort]

theorem tcpFold_StartTime (rest : List TCPEvent) : ∀ s : TCPStream,
    (rest.foldl (fun acc e => tcpMutate e.srcIP e.tcp e.timestamp e.app acc)
      s).StartTime = s.StartTime := by
  induction rest with
  | nil => intro s; rfl
  | cons e rest ih =>
    intro s
    rw [List.foldl_cons, ih, tcpMutate_StartTime]

theorem tcpFold_EndTime (rest : List TCPEvent) : ∀ s : TCPStream,
    (rest.foldl (fun acc e => tcpMutate e.srcIP e.tcp e.timestamp e.app acc)
      s).EndTime = rest.foldl (fun _ e => e.timestamp) s.EndTime := by
  induction rest with
  | nil => intro s; rfl
  | cons e rest ih =>
    intro s
    rw [List.foldl_cons, ih, List.foldl_cons, tcpMutate_EndTime]

theorem tcpFold_bytes (rest : List TCPEvent) : ∀ s : TCPStream,
    (rest.foldl (fun acc e => tcpMutate e.srcIP e.tcp e.timestamp e.app acc)
        s).BytesSent =
      s.BytesSent + ((rest.filter fun e =>
        decide (e.srcIP = s.SrcIP ∧ e.tcp.SrcPort = s.SrcPort)).map
          eventSize).sum ∧
    (rest.foldl (fun acc e => tcpMutate e.srcIP e.tcp e.timestamp e.app acc)
        s).BytesReceived =
      s.BytesReceived + ((rest.filter fun e =>
        !(decide (e.srcIP = s.SrcIP ∧ e.tcp.SrcPort = s.SrcPort))).map
          eventSize).sum := by
  induction rest with
  | nil => intro s; simp
  | cons e rest ih =>
    intro s
    rw [List.foldl_cons]
    obtain ⟨ihS, ihR⟩ := ih (tcpMutate e.srcIP e.tcp e.timestamp e.app s)
    rw [tcpMutate_SrcIP, tcpMutate_SrcPort] at ihS ihR
    by_cases hdir : e.srcIP = s.SrcIP ∧ e.tcp.SrcPort = s.SrcPort
    · obtain ⟨hS, hR⟩ := tcpMutate_sent_of _ _ _ _ _ hdir
      constructor
      · rw [ihS, hS, List.filter_cons]
        simp [hdir, eventSize] <;> omega
      · rw [ihR, hR, List.filter_cons]
        simp [hdir]
    · obtain ⟨hS, hR⟩ := tcpMutate_recv_of _ _ _ _ _ hdir
      constructor
      · rw [ihS, hS, List.filter_cons]
        simp [hdir]
      · rw [ihR, hR, List.filter_cons]
        simp [hdir, eventSize] <;> omega

theorem sum_filter_split {α : Type} (p : α → Bool) (f : α → Int)
    (es : List α) :
    ((es.filter p).map f).sum + ((es.filter fun e => !(p e)).map f).sum =
      (es.map f).sum := by
  induction es with
  | nil => simp
  | cons e es ih =>
    cases hp : p e <;> simp [List.filter_cons, hp] <;> omega

/-- C5: for every packet sequence of one normalized flow, each packet's
payload length is added to bytes-sent exactly when its (source address,
source port) pair equals the record's first-seen sender and to
bytes-received otherwise, so after finalize the emitted record satisfies
bytes-sent + bytes-received = total payload length. -/
theorem C5_byte_attribution_and_conservation (e0 : TCPEvent)
    (rest : List TCPEvent) (k : String)
    (hk : ∀ e ∈ e0 :: rest, eventKey e = k) :
    ∃ c : TCPConnectionInfo,
      (TCPTracker.Finalize
        ((e0 :: rest).foldl TCPTracker.processEvent NewTCPTracker)).Connections
        = [c] ∧
      c.BytesSent = (((e0 :: rest).filter fun e =>
        decide (e.srcIP = e0.srcIP ∧ e.tcp.SrcPort = e0.tcp.SrcPort)).map
          eventSize).sum ∧
      c.BytesReceived = (((e0 :: rest).filter fun e =>
        !(decide (e.srcIP = e0.srcIP ∧ e.tcp.SrcPort = e0.tcp.SrcPort))).map
          eventSize).sum ∧
      c.BytesSent + c.BytesReceived = ((e0 :: rest).map eventSize).sum := by
  have hk0 : eventKey e0 = k := hk e0 (by simp)
  rw [List.foldl_cons, processEvent_fresh, hk0,
    foldl_processEvent_single k rest _ (fun e he => hk e (by simp [he]))]
  set m0 := tcpMutate e0.srcIP e0.tcp e0.timestamp e0.app
    (newStream e0.srcIP e0.dstIP e0.tcp e0.timestamp) with hm0
  have hm0ip : m0.SrcIP = e0.srcIP := by
    rw [hm0, tcpMutate_SrcIP]; rfl
  have hm0port : m0.SrcPort = e0.tcp.SrcPort := by
    rw [hm0, tcpMutate_SrcPort]; rfl
  have hm0bytes := tcpMutate_sent_of e0.srcIP e0.tcp e0.timestamp e0.app
    (newStream e0.srcIP e0.dstIP e0.tcp e0.timestamp) ⟨rfl, rfl⟩
  rw [← hm0] at hm0bytes
  obtain ⟨hb1, hb2⟩ := hm0bytes
  rw [show (newStream e0.srcIP e0.dstIP e0.tcp e0.timestamp).BytesSent = 0
    from rfl] at hb1
  rw [show (newStream e0.srcIP e0.dstIP e0.tcp e0.timestamp).BytesReceived = 0
    from rfl] at hb2
  have hfold := tcpFold_bytes rest m0
  rw [hm0ip, hm0port] at hfold
  obtain ⟨hfS, hfR⟩ := hfold
  refine ⟨_, rfl, ?_, ?_, ?_⟩
  · show (rest.foldl
      (fun acc e => tcpMutate e.srcIP e.tcp e.timestamp e.app acc)
        m0).BytesSent = _
    rw [hfS, hb1, List.filter_cons]
    simp [eventSize] <;> omega
  · show (rest.foldl
      (fun acc e => tcpMutate e.srcIP e.tcp e.timestamp e.app acc)
        m0).BytesReceived = _
    rw [hfR, hb2, List.filter_cons]
    simp
  · show (rest.foldl
        (fun acc e => tcpMutate e.srcIP e.tcp e.timestamp e.app acc)
          m0).BytesSent +
      (rest.foldl
        (fun acc e => tcpMutate e.srcIP e.tcp e.timestamp e.app acc)
          m0).BytesReceived = _
    rw [hfS, hfR, hb1, hb2]
    have hsplit := sum_filter_split
      (fun e => decide (e.srcIP = e0.srcIP ∧ e.tcp.SrcPort = e0.tcp.SrcPort))
      eventSize rest
    rw [List.map_cons, List.sum_cons]
    simp [eventSize] at hsplit ⊢
    omega

theorem udpMutate_StartTime (a : String) (h : UDPHeader) (ts : Int)
    (app : Option Nat) (f : UDPFlow) :
    (udpMutate a h ts app f).StartTime = f.StartTime := by
  unfold udpMutate
  dsimp only
  split_ifs <;> rfl

theorem udpMutate_EndTime (a : String) (h : UDPHeader) (ts : Int)
    (app : Option Nat) (f : UDPFlow) :
    (udpMutate a h ts app f).EndTime = ts := by
  unfold udpMutate
  dsimp only
  split_ifs <;> rfl

theorem udpProcessEvent_existing (k : String) (f : UDPFlow) (e : UDPEvent)
    (hek : udpEventKey e = k) :
    UDPTracker.processEvent { flows := [(k, f)], Connections := [] } e =
      { flows := [(k, udpMutate e.srcIP e.udp e.timestamp e.app f)],
        Connections := [] } := by
  unfold UDPTracker.processEvent UDPTracker.ProcessPacket
  dsimp only
  rw [show getFlowKey e.srcIP e.dstIP e.udp.SrcPort e.udp.DstPort = k from hek]
  simp [upsert, List.lookup_cons]

theorem udpProcessEvent_fresh (e : UDPEvent) :
    UDPTracker.processEvent NewUDPTracker e =
      { flows := [(udpEventKey e,
          udpMutate e.srcIP e.udp e.timestamp e.app
            (newFlow e.srcIP e.dstIP e.udp e.timestamp))],
        Connections := [] } := by
  unfold UDPTracker.processEvent UDPTracker.ProcessPacket NewUDPTracker udpEventKey
  simp [upsert]

theorem foldl_udpProcessEvent_single (k : String) (rest : List UDPEvent) :
    ∀ f : UDPFlow, (∀ e ∈ rest, udpEventKey e = k) →
      rest.foldl UDPTracker.processEvent
          { flows := [(k, f)], Connections := [] } =
        { flows := [(k, rest.foldl
            (fun acc e => udpMutate e.srcIP e.udp e.timestamp e.app acc) f)],
          Connections := [] } := by
  induction rest with
  | nil => intro f _; rfl
  | cons e rest ih =>
    intro f hk
    rw [List.foldl_cons, udpProcessEvent_existing k f e (hk e (by simp)),
      ih _ (fun x hx => hk x (by simp [hx])), List.foldl_cons]

theorem udpFold_StartTime (rest : List UDPEvent) : ∀ f : UDPFlow,
    (rest.foldl (fun acc e => udpMutate e.srcIP e.udp e.timestamp e.app acc)
      f).StartTime = f.StartTime := by
  induction rest with
  | nil => intro f; rfl
  | cons e rest ih =>
    intro f
    rw [List.foldl_cons, ih, udpMutate_StartTime]

theorem udpFold_EndTime (rest : List UDPEvent) : ∀ f : UDPFlow,
    (rest.foldl (fun acc e => udpMutate e.srcIP e.udp e.timestamp e.app acc)
      f).EndTime = rest.foldl (fun _ e => e.timestamp) f.EndTime := by
  induction rest with
  | nil => intro f; rfl
  | cons e rest ih =>
    intro f
    rw [List.foldl_cons, ih, List.foldl_cons, udpMutate_EndTime]

/-- C6 amended: the duration emitted at finalize equals last-seen minus
first-seen truncated to whole milliseconds (for the TCP and the UDP
tracker alike), where last-seen is the final packet's timestamp; the
duration is non-negative whenever the final timestamp is not earlier than
the first, but can be negative when the capture's timestamps regress. -/
theorem C6_duration_truncated_ms :
    (∀ (e0 : TCPEvent) (rest : List TCPEvent) (k : String),
      (∀ e ∈ e0 :: rest, eventKey e = k) →
      ∃ c : TCPConnectionInfo,
        (TCPTracker.Finalize ((e0 :: rest).foldl TCPTracker.processEvent
          NewTCPTracker)).Connections = [c] ∧
        c.DurationMs = Int.tdiv
          (rest.foldl (fun _ e => e.timestamp) e0.timestamp - e0.timestamp)
          1000000 ∧
        (e0.timestamp ≤ rest.foldl (fun _ e => e.timestamp) e0.timestamp →
          0 ≤ c.DurationMs)) ∧
    (∀ (e0 : UDPEvent) (rest : List UDPEvent) (k : String),
      (∀ e ∈ e0 :: rest, udpEventKey e = k) →
      ∃ c : UDPConnectionInfo,
        (UDPTracker.Finalize ((e0 :: rest).foldl UDPTracker.processEvent
          NewUDPTracker)).Connections = [c] ∧
        c.DurationMs = Int.tdiv
          (rest.foldl (fun _ e => e.timestamp) e0.timestamp - e0.timestamp)
          1000000 ∧
        (e0.timestamp ≤ rest.foldl (fun _ e => e.timestamp) e0.timestamp →
          0 ≤ c.DurationMs)) := by
  constructor
  · intro e0 rest k hk
    have hk0 : eventKey e0 = k := hk e0 (by simp)
    rw [List.foldl_cons, processEvent_fresh, hk0,
      foldl_processEvent_single k rest _ (fun e he => hk e (by simp [he]))]
    set m0 := tcpMutate e0.srcIP e0.tcp e0.timestamp e0.app
      (newStream e0.srcIP e0.dstIP e0.tcp e0.timestamp) with hm0
    have hS : (rest.foldl
        (fun acc e => tcpMutate e.srcIP e.tcp e.timestamp e.app acc)
        m0).StartTime = e0.timestamp := by
      rw [tcpFold_StartTime, hm0, tcpMutate_StartTime]; rfl
    have hE : (rest.foldl
        (fun acc e => tcpMutate e.srcIP e.tcp e.timestamp e.app acc)
        m0).EndTime = rest.foldl (fun _ e => e.timestamp) e0.timestamp := by
      rw [tcpFold_EndTime, hm0, tcpMutate_EndTime]
    refine ⟨_, rfl, ?_, ?_⟩
    · show Int.tdiv _ 1000000 = _
      rw [hS, hE]
    · intro hmono
      show 0 ≤ Int.tdiv _ 1000000
      rw [hS, hE]
      exact Int.tdiv_nonneg (by omega) (by norm_num)
  · intro e0 rest k hk
    have hk0 : udpEventKey e0 = k := hk e0 (by simp)
    rw [List.foldl_cons, udpProcessEvent_fresh, hk0,
      foldl_udpProcessEvent_single k rest _ (fun e he => hk e (by simp [he]))]
    set m0 := udpMutate e0.srcIP e0.udp e0.timestamp e0.app
      (newFlow e0.srcIP e0.dstIP e0.udp e0.timestamp) with hm0
    have hS : (rest.foldl
        (fun acc e => udpMutate e.srcIP e.udp e.timestamp e.app acc)
        m0).StartTime = e0.timestamp := by
      rw [udpFold_StartTime, hm0, udpMutate_StartTime]; rfl
    have hE : (rest.foldl
        (fun acc e => udpMutate e.srcIP e.udp e.timestamp e.app acc)
        m0).EndTime = rest.foldl (fun _ e => e.timestamp) e0.timestamp := by
      rw [udpFold_EndTime, hm0, udpMutate_EndTime]
    refine ⟨_, rfl, ?_, ?_⟩
    · show Int.tdiv _ 1000000 = _
      rw [hS, hE]
    · intro hmono
      show 0 ≤ Int.tdiv _ 1000000
      rw [hS, hE]
      exact Int.tdiv_nonneg (by omega) (by norm_num)

/-- Witness for C5 on the concrete two-packet flow: 3 bytes sent by the
first-seen sender, 6 bytes received. -/
theorem C5_byte_attribution_and_conservation_witness :
    ∃ c : TCPConnectionInfo,
      (TCPTracker.Finalize (([tcpEvtA, tcpEvtB]).foldl TCPTracker.processEvent
        NewTCPTracker)).Connections = [c] ∧
      c.BytesSent = 3 ∧ c.BytesReceived = 6 ∧
      c.BytesSent + c.BytesReceived = 9 := by
  obtain ⟨c, hc, hs, hr, hsum⟩ := C5_byte_attribution_and_conservation
    tcpEvtA [tcpEvtB] (eventKey tcpEvtA) (by decide)
  refine ⟨c, hc, ?_, ?_, ?_⟩
  · rw [hs]; decide
  · rw [hr]; decide
  · rw [hsum]; decide

/-- C6 is false as stated: when the capture's timestamps regress, the
emitted duration is negative. Two packets of one flow observed at
t = 5 ms and then t = 0 ms yield a single connection record with
duration -5 ms. -/
theorem C6_negative_duration_counterexample :
    ((TCPTracker.Finalize (([tcpEvtC, tcpEvtD]).foldl TCPTracker.processEvent
      NewTCPTracker)).Connections.map TCPConnectionInfo.DurationMs) =
      [-5] ∧ (-5 : Int) < 0 := by
  constructor
  · decide
  · decide

/-- Witness for the amended C6 on the concrete ordered two-packet flow:
duration 7 ms, non-negative. -/
theorem C6_duration_truncated_ms_witness :
    ∃ c : TCPConnectionInfo,
      (TCPTracker.Finalize (([tcpEvtA, tcpEvtB]).foldl TCPTracker.processEvent
        NewTCPTracker)).Connections = [c] ∧
      c.DurationMs = 7 ∧ 0 ≤ c.DurationMs := by
  obtain ⟨c, hc, hd, hge⟩ := C6_duration_truncated_ms.1
    tcpEvtA [tcpEvtB] (eventKey tcpEvtA) (by decide)
  refine ⟨c, hc, ?_, hge (by decide)⟩
  rw [hd]
  decide

/-! ## Claims C9 and C10 -/

theorem saveLoop_eq_filter {α : Type} (ok : α → Bool) (stored recs : List α) :
    saveLoop ok stored recs = stored ++ recs.filter ok := by
  induction recs generalizing stored with
  | nil => simp [saveLoop]
  | cons r recs ih =>
    unfold saveLoop at ih ⊢
    rw [List.foldl_cons, List.filter_cons, ih]
    cases hok : ok r <;> simp

/-- C9: a source-open failure ends the job in status "failed" with the
triggering error message attached, returns an error, and persists no
asset, target, or connection record; after a successful open, each record
whose row-level save fails is skipped while every other record is still
written, and the job ends in status "completed" with no error returned. -/
theorem C9_open_failure_fatal_row_failure_skipped :
    (∀ (analysisID : Int) (e : String)
       (parseIP : String → Option (List Nat)) (sink : SinkBehavior)
       (db0 : Database),
      (AnalyzePCAP analysisID (Except.error e) parseIP sink db0).1.status =
        "failed" ∧
      (AnalyzePCAP analysisID (Except.error e) parseIP sink
        db0).1.errorMessage = e ∧
      (AnalyzePCAP analysisID (Except.error e) parseIP sink db0).1.assets =
        db0.assets ∧
      (AnalyzePCAP analysisID (Except.error e) parseIP sink db0).1.targets =
        db0.targets ∧
      (AnalyzePCAP analysisID (Except.error e) parseIP sink db0).1.tcpConns =
        db0.tcpConns ∧
      (AnalyzePCAP analysisID (Except.error e) parseIP sink db0).1.otherConns =
        db0.otherConns ∧
      (AnalyzePCAP analysisID (Except.error e) parseIP sink db0).2 =
        some ("failed to open pcap file: " ++ e)) ∧
    (∀ (analysisID : Int) (packets : List Packet)
       (parseIP : String → Option (List Nat)) (sink : SinkBehavior)
       (db0 : Database),
      (AnalyzePCAP analysisID (Except.ok packets) parseIP sink db0).1.status =
        "completed" ∧
      (AnalyzePCAP analysisID (Except.ok packets) parseIP sink db0).2 =
        none ∧
      (AnalyzePCAP analysisID (Except.ok packets) parseIP sink db0).1.assets =
        db0.assets ++
          (pipelineRecords analysisID packets parseIP).1.filter
            sink.saveAssetOk ∧
      (AnalyzePCAP analysisID (Except.ok packets) parseIP sink db0).1.targets =
        db0.targets ++
          (pipelineRecords analysisID packets parseIP).2.1.filter
            sink.saveTargetOk ∧
      (AnalyzePCAP analysisID (Except.ok packets) parseIP sink
        db0).1.tcpConns =
        db0.tcpConns ++
          (pipelineRecords analysisID packets parseIP).2.2.1.filter
            sink.saveTCPOk ∧
      (AnalyzePCAP analysisID (Except.ok packets) parseIP sink
        db0).1.otherConns =
        db0.otherConns ++
          (pipelineRecords analysisID packets parseIP).2.2.2.filter
            sink.saveOtherOk) := by
  constructor
  · intro analysisID e parseIP sink db0
    exact ⟨rfl, rfl, rfl, rfl, rfl, rfl, rfl⟩
  · intro analysisID packets parseIP sink db0
    refine ⟨rfl, rfl, ?_, ?_, ?_, ?_⟩ <;>
      simp [AnalyzePCAP, saveLoop_eq_filter]

/-- C10: for a TCP packet whose ports avoid 80 and 22, the fingerprint
state after the packet loop body is exactly the TCP-characteristics update
(for IPv4) or unchanged (for IPv6): the application payload never reaches
the HTTP or SSH analyzer, so it cannot influence any label or
confidence. -/
theorem C10_http_ssh_port_gating (st : JobState) (pkt : Packet) (nl : NetLayer)
    (tcp : TCPHeader)
    (hnet : pkt.net = some nl) (htcp : pkt.tcp = some tcp)
    (hudp : pkt.udp = none)
    (h80s : tcp.SrcPort ≠ 80) (h80d : tcp.DstPort ≠ 80)
    (h22s : tcp.SrcPort ≠ 22) (h22d : tcp.DstPort ≠ 22) :
    (processPacket st pkt).osFingerprinter =
      match nl with
      | .v4 src _ ttl => st.osFingerprinter.AnalyzeTCP src tcp.Window ttl
      | .v6 _ _ => st.osFingerprinter := by
  obtain ⟨ts, net, eth, tcpo, udpo, icmpF, app⟩ := pkt
  dsimp only at hnet htcp hudp
  subst hnet
  subst htcp
  subst hudp
  cases nl with
  | v4 src dst ttl =>
    unfold processPacket
    dsimp only
    rw [if_neg (not_or.mpr ⟨h80d, h80s⟩), if_neg (not_or.mpr ⟨h22d, h22s⟩)]
    rfl
  | v6 src dst =>
    unfold processPacket
    dsimp only
    rw [if_neg (not_or.mpr ⟨h80d, h80s⟩), if_neg (not_or.mpr ⟨h22d, h22s⟩)]


/-- Witness for C10: a packet on ports 5000/6000 with a User-Agent payload
leaves the fingerprinter state equal to the payload-free TCP update. -/
theorem C10_http_ssh_port_gating_witness :
    (processPacket initialJobState pktOddPort).osFingerprinter =
      OSFingerprinter.AnalyzeTCP NewOSFingerprinter "10.0.0.5" 0 64 :=
  C10_http_ssh_port_gating initialJobState pktOddPort
    (NetLayer.v4 "10.0.0.5" "10.0.0.9" 64)
    { SrcPort := 5000, DstPort := 6000, Window := 0, SYN := false,
      ACK := false, FIN := false, RST := false, payloadLen := 20 }
    (by rfl) (by rfl) (by rfl) (by decide) (by decide) (by decide) (by decide)

end PcapAnalyzer
